import Mathlib

/-! Nixie tube clock: a shallow embedding of `Nixie_main_v3.c`.

The firmware runs on a PIC16F15325 compiled with XC8: `unsigned char` is 8 bits,
`int` and `unsigned int` are 16 bits.  Machine integers are natural numbers that
are reduced explicitly (`u8`, `u16`) wherever the C code stores into a variable
of that width.  The globals, the peripheral register bits that the program reads
or writes, and the trace of what is put on the serial bus and the latch line are
gathered in `State`.  The busy-wait on `SSP1STATbits.BF` and the 10 ms delay of
the latch pulse are hardware timing and carry no state here.
-/

namespace Nixie

/-! ## Machine arithmetic -/

/-- Reduction to an 8-bit `unsigned char`. -/
def u8 (x : Nat) : Nat := x % 256

/-- Reduction to a 16-bit `unsigned int`. -/
def u16 (x : Nat) : Nat := x % 65536

/-- Unsigned 16-bit subtraction `a - b` of two `unsigned int` values. -/
def sub16 (a b : Nat) : Nat := (a + 65536 - b % 65536) % 65536

/-- Modelled from the spec: the C library function `pow` of `math.h` is not part of
the sources; `(unsigned int)pow(2,d)` is read as the one-hot value `1 << d`
stored in a 16-bit `unsigned int`. -/
def pow2 (d : Nat) : Nat := u16 (1 <<< d)

/-! ## State -/

/-- Something observable on the outputs of the microcontroller: a byte written to
`SSP1BUF` (shifted out on the serial bus) or one pulse of `RCK_Latch_Signal`. -/
inductive Event where
  | byte (b : Nat)
  | latch
  deriving DecidableEq, Repr

/-- Globals of the program, the register bits it touches, and the output trace. -/
structure State where
  currentMode : Nat
  myTime : Nat
  waitFlag : Nat
  TMR0IE : Nat
  TMR0IF : Nat
  INTE : Nat
  INTF : Nat
  T0EN : Nat
  TMR0H : Nat
  TMR0L : Nat
  out : List Event
  deriving DecidableEq, Repr

/-- Locals of `main` that live across loop iterations. -/
structure Locals where
  aState_curr : Nat
  aState_prev : Nat
  adjustSecs : Nat
  adjustMins : Nat
  adjustHours : Nat
  deriving DecidableEq, Repr

def MODE_FREE_RUNNING : Nat := 0
def MODE_EDIT_HOURS : Nat := 1
def MODE_EDIT_MINS : Nat := 2
def MODE_EDIT_SECS : Nat := 3

/-- State after the interrupt set-up of `main`, just when timer0 is started. -/
def powerOn : State :=
  { currentMode := 0, myTime := 0, waitFlag := 0,
    TMR0IE := 1, TMR0IF := 0, INTE := 1, INTF := 0, T0EN := 1,
    TMR0H := 0x44, TMR0L := 0x80, out := [] }

/-- Initial values of the locals of `main`. -/
def initLocals : Locals :=
  { aState_curr := 0, aState_prev := 0, adjustSecs := 0, adjustMins := 0, adjustHours := 0 }

/-! ## `sendDataOut` and `latchOutData` -/

/-- STEP 1 of `sendDataOut`: the digits `(h1,h0,m1,m0,s1,s0)` of `myTime`. -/
def timeDigits (myTime : Nat) : Nat × Nat × Nat × Nat × Nat × Nat :=
  let secs := myTime % 60
  let s1 := secs / 10
  let s0 := secs % 10
  let mins := (myTime / 60) % 60
  let m1 := mins / 10
  let m0 := mins % 10
  let hours := myTime / 3600
  let hours := if hours = 0 then 12 else hours
  let h1 := hours / 10
  let h0 := hours % 10
  (h1, h0, m1, m0, s1, s0)

/-- STEP 2 of `sendDataOut`: the six values written to the 8-bit `SSP1BUF`, in the
order in which they are written, for the digits found in STEP 1. -/
def encodeDigits : Nat × Nat × Nat × Nat × Nat × Nat → List Nat
  | (h1, h0, m1, m0, s1, s0) =>
    let bin_hour1 := pow2 h1
    let bin_hour0 := pow2 h0
    let bin_min1 := pow2 m1
    let bin_min0 := pow2 m0
    let bin_sec1 := pow2 s1
    let bin_sec0 := pow2 s0
    [ u8 (0b00001111 &&& (((u16 (bin_hour1 <<< 2)) &&& 0b1100) ||| ((bin_hour0 >>> 8) &&& 0b11))),
      u8 bin_hour0,
      u8 (((u16 (bin_min1 <<< 2)) &&& 0b11111100) ||| ((bin_min0 >>> 8) &&& 0b11)),
      u8 bin_min0,
      u8 (((u16 (bin_sec1 <<< 2)) &&& 0b11111100) ||| ((bin_sec0 >>> 8) &&& 0b11)),
      u8 bin_sec0 ]

/-- The six bytes that `sendDataOut` writes to `SSP1BUF` when `myTime` has passed
the overflow guard. -/
def frameBytes (myTime : Nat) : List Nat := encodeDigits (timeDigits myTime)

/-- The function `sendDataOut`: overflow guard on `myTime`, then the six bytes. -/
def sendDataOut (s : State) : State :=
  let s := { s with INTE := 0 }
  let s := if s.myTime ≥ 43200 then { s with myTime := 0 } else s
  let s := { s with out := s.out ++ (frameBytes s.myTime).map Event.byte }
  { s with INTE := 1 }

/-- The function `latchOutData`: one pulse on the RCK line. -/
def latchOutData (s : State) : State :=
  let s := { s with INTE := 0 }
  let s := { s with out := s.out ++ [Event.latch] }
  { s with INTE := 1 }

/-! ## Interrupt service routine -/

/-- Body of the timer0 branch of `ISR_High`. -/
def tickBranch (s : State) : State :=
  let s := { s with TMR0H := 0x44, TMR0L := 0x80 }
  let s := latchOutData s
  let s := { s with myTime := u16 (s.myTime + 1) }
  let s := { s with waitFlag := 0 }
  { s with TMR0IF := 0 }

/-- Body of the push-button branch of `ISR_High`. -/
def buttonBranch (s : State) : State :=
  let s := { s with TMR0IE := 0, T0EN := 0, TMR0IF := 0 }
  let s := { s with currentMode := u8 (s.currentMode + 1) }
  let s := if s.currentMode ≥ 4 then { s with currentMode := 0 } else s
  let s := { s with INTF := 0 }
  if s.currentMode = MODE_FREE_RUNNING then
    { s with TMR0H := 0x44, TMR0L := 0x80, TMR0IE := 1, T0EN := 1 }
  else s

/-- The interrupt service routine `ISR_High`. -/
def ISR_High (s : State) : State :=
  let s := if s.TMR0IE = 1 ∧ s.TMR0IF = 1 then tickBranch s else s
  if s.INTE = 1 ∧ s.INTF = 1 then buttonBranch s else s

/-- Hardware event: timer0 overflows and raises its interrupt flag. -/
def timerOverflow (s : State) : State := { s with TMR0IF := 1 }

/-- Hardware event: a rising edge on the INT pin raises the external interrupt flag. -/
def buttonEdge (s : State) : State := { s with INTF := 1 }

/-! ## Main loop -/

/-- One iteration of the `MODE_FREE_RUNNING` loop of `main`. -/
def freeRunningIter (s : State) : State :=
  if s.waitFlag = 0 then
    let s := sendDataOut s
    { s with waitFlag := 1 }
  else s

/-- Hour adjustment of the `MODE_EDIT_HOURS` loop; `up` is the outcome of the test
`aState_curr != PORTCbits.RC3`.  Returns the new `adjustHours` and `myTime`. -/
def hoursUpdate (up : Bool) (myTime : Nat) : Nat × Nat :=
  let adjustHours := u8 (myTime / 3600)
  let adjustHours :=
    if up then
      let a := u8 (adjustHours + 1)
      if a ≥ 12 then 0 else a
    else
      let a := u8 (adjustHours + 255)
      if a ≥ 13 then 11 else a
  let myTime := sub16 myTime (u16 ((myTime / 3600) * 3600))
  let myTime := u16 (myTime + u16 (adjustHours * 3600))
  (adjustHours, myTime)

/-- Minute adjustment of the `MODE_EDIT_MINS` loop. -/
def minsUpdate (up : Bool) (myTime : Nat) : Nat × Nat :=
  let adjustMins := u8 ((myTime / 60) % 60)
  let adjustMins :=
    if up then
      let a := u8 (adjustMins + 1)
      if a ≥ 60 then 0 else a
    else
      let a := u8 (adjustMins + 255)
      if a ≥ 60 then 59 else a
  let myTime := sub16 myTime (u16 (((myTime / 60) % 60) * 60))
  let myTime := u16 (myTime + u16 (adjustMins * 60))
  (adjustMins, myTime)

/-- Second adjustment of the `MODE_EDIT_SECS` loop. -/
def secsUpdate (up : Bool) (myTime : Nat) : Nat × Nat :=
  let adjustSecs := u8 (myTime % 60)
  let adjustSecs :=
    if up then
      let a := u8 (adjustSecs + 1)
      if a ≥ 60 then 0 else a
    else
      let a := u8 (adjustSecs + 255)
      if a ≥ 60 then 59 else a
  let myTime := sub16 myTime (myTime % 60)
  let myTime := u16 (myTime + adjustSecs)
  (adjustSecs, myTime)

/-- One iteration of the `MODE_EDIT_HOURS` loop; `rc4` and `rc3` are the levels read
from encoder channels A and B. -/
def editHoursIter (rc4 rc3 : Nat) (l : Locals) (s : State) : Locals × State :=
  let l := { l with aState_curr := rc4 }
  if l.aState_curr ≠ l.aState_prev then
    let r := hoursUpdate (decide (l.aState_curr ≠ rc3)) s.myTime
    let l := { l with adjustHours := r.1 }
    let s := { s with myTime := r.2 }
    let s := sendDataOut s
    let s := latchOutData s
    ({ l with aState_prev := l.aState_curr }, s)
  else (l, s)

/-- One iteration of the `MODE_EDIT_MINS` loop. -/
def editMinsIter (rc4 rc3 : Nat) (l : Locals) (s : State) : Locals × State :=
  let l := { l with aState_curr := rc4 }
  if l.aState_curr ≠ l.aState_prev then
    let r := minsUpdate (decide (l.aState_curr ≠ rc3)) s.myTime
    let l := { l with adjustMins := r.1 }
    let s := { s with myTime := r.2 }
    let s := sendDataOut s
    let s := latchOutData s
    ({ l with aState_prev := l.aState_curr }, s)
  else (l, s)

/-- One iteration of the `MODE_EDIT_SECS` loop. -/
def editSecsIter (rc4 rc3 : Nat) (l : Locals) (s : State) : Locals × State :=
  let l := { l with aState_curr := rc4 }
  if l.aState_curr ≠ l.aState_prev then
    let r := secsUpdate (decide (l.aState_curr ≠ rc3)) s.myTime
    let l := { l with adjustSecs := r.1 }
    let s := { s with myTime := r.2 }
    let s := sendDataOut s
    let s := latchOutData s
    ({ l with aState_prev := l.aState_curr }, s)
  else (l, s)

/-- One free-running second: the timer fires, `ISR_High` runs, and the main loop
performs its iteration for that second. -/
def tickPeriod (s : State) : State :=
  freeRunningIter (ISR_High (timerOverflow s))

/-- The function `f` applied `n` times. -/
def iter (f : State → State) : Nat → State → State
  | 0, s => s
  | n + 1, s => iter f n (f s)

/-- One pass of the body of `while(1)` in `main`: the inner loop selected by
`currentMode` performs one iteration; no inner loop runs for any other value. -/
def mainIter (rc4 rc3 : Nat) (l : Locals) (s : State) : Locals × State :=
  if s.currentMode = MODE_FREE_RUNNING then (l, freeRunningIter s)
  else if s.currentMode = MODE_EDIT_HOURS then editHoursIter rc4 rc3 l s
  else if s.currentMode = MODE_EDIT_MINS then editMinsIter rc4 rc3 l s
  else if s.currentMode = MODE_EDIT_SECS then editSecsIter rc4 rc3 l s
  else (l, s)

/-! ## Reading a frame back -/

/-- The bytes of a frame concatenated most-significant byte first. -/
def frameValue (bytes : List Nat) : Nat :=
  bytes.foldl (fun acc b => acc * 256 + b) 0

/-- Bits `lo .. lo+w-1` of `v`. -/
def field (v lo w : Nat) : Nat := (v / 2 ^ lo) % 2 ^ w

/-- Index of the set bit of a `w`-bit one-hot value, if it is one-hot. -/
def oneHotIndex (w x : Nat) : Option Nat :=
  (List.range w).find? (fun i => x == 2 ^ i)

/-- Number of set bits among the low `w` bits of `x`. -/
def popCount : Nat → Nat → Nat
  | 0, _ => 0
  | w + 1, x => x % 2 + popCount w (x / 2)

/-- Decoding of six bytes: the index of the set bit in each of the six digit fields
H1 = bits 43..42, H0 = 41..32, M1 = 31..26, M0 = 25..16, S1 = 15..10, S0 = 9..0. -/
def decodeFrame (bytes : List Nat) : Option (Nat × Nat × Nat × Nat × Nat × Nat) :=
  let v := frameValue bytes
  match oneHotIndex 2 (field v 42 2), oneHotIndex 10 (field v 32 10),
        oneHotIndex 6 (field v 26 6), oneHotIndex 10 (field v 16 10),
        oneHotIndex 6 (field v 10 6), oneHotIndex 10 (field v 0 10) with
  | some h1, some h0, some m1, some m0, some s1, some s0 => some (h1, h0, m1, m0, s1, s0)
  | _, _, _, _, _, _ => none

/-- Reference decomposition of a clock time into display digits, hour 0 shown as 12. -/
def refDigits (t : Nat) : Nat × Nat × Nat × Nat × Nat × Nat :=
  let S := t % 60
  let M := (t / 60) % 60
  let H := if t / 3600 = 0 then 12 else t / 3600
  (H / 10, H % 10, M / 10, M % 10, S / 10, S % 10)

/-- A free-running state whose clock shows `t` and whose frame has been sent. -/
def sampleState (t : Nat) : State :=
  { powerOn with myTime := t, waitFlag := 1 }

/-- A state in edit mode `mode` (timer0 stopped) whose clock shows `t`. -/
def editState (mode t : Nat) : State :=
  { powerOn with currentMode := mode, myTime := t, waitFlag := 1, TMR0IE := 0, T0EN := 0 }

/-! ## Executions -/

/-- What can happen to the running program: the push button raises the external
interrupt and `ISR_High` runs, timer0 raises its flag and `ISR_High` runs, or the
main loop performs one pass having sampled the encoder channels A and B.  The timer
flag is raised whether or not timer0 is running, which only adds executions.  These
are the executions in which every interrupt is served between two whole passes. -/
inductive Input where
  | press
  | tick
  | mainLoop (rc4 rc3 : Nat)
  deriving DecidableEq, Repr

/-- Effect of one input on the locals of `main` and the machine state. -/
def step : Input → Locals × State → Locals × State
  | Input.press, (l, s) => (l, ISR_High (buttonEdge s))
  | Input.tick, (l, s) => (l, ISR_High (timerOverflow s))
  | Input.mainLoop rc4 rc3, (l, s) => mainIter rc4 rc3 l s

/-- Effect of a sequence of inputs, first input first. -/
def run : List Input → Locals × State → Locals × State
  | [], c => c
  | i :: is, c => run is (step i c)

/-- Invariant of the executions: the mode is one of the four, the external interrupt
is enabled and not pending between inputs, no enabled timer flag is left pending,
and the tick source is armed exactly in free-running mode. -/
def armedInv (s : State) : Prop :=
  s.currentMode < 4 ∧ s.INTE = 1 ∧ s.INTF = 0 ∧ ¬ (s.TMR0IE = 1 ∧ s.TMR0IF = 1) ∧
  (s.currentMode = MODE_FREE_RUNNING → s.TMR0IE = 1 ∧ s.T0EN = 1) ∧
  (s.currentMode ≠ MODE_FREE_RUNNING → s.TMR0IE = 0 ∧ s.T0EN = 0)

/-! ## Executions with interrupts between a loop test and the loop body -/

/-- The four inner `while` loops of `main`, in the order of the source. -/
inductive InnerLoop where
  | free
  | hours
  | mins
  | secs
  deriving DecidableEq, Repr

/-- The value that `currentMode` is compared with in the test of a loop. -/
def loopMode : InnerLoop → Nat
  | InnerLoop.free => MODE_FREE_RUNNING
  | InnerLoop.hours => MODE_EDIT_HOURS
  | InnerLoop.mins => MODE_EDIT_MINS
  | InnerLoop.secs => MODE_EDIT_SECS

/-- The loop whose test is evaluated when the test of a loop fails; after the last
loop the outer `while(1)` starts over with the first. -/
def nextLoop : InnerLoop → InnerLoop
  | InnerLoop.free => InnerLoop.hours
  | InnerLoop.hours => InnerLoop.mins
  | InnerLoop.mins => InnerLoop.secs
  | InnerLoop.secs => InnerLoop.free

/-- Where the main program stands: about to evaluate the test of a loop, or past the
test and about to run the loop body. -/
inductive Point where
  | test (k : InnerLoop)
  | body (k : InnerLoop)
  deriving DecidableEq, Repr

/-- The main program (where it stands and its locals) and the machine state. -/
structure Config where
  pc : Point
  loc : Locals
  st : State
  deriving DecidableEq, Repr

/-- The body of a loop, from its first statement to its last; `rc4` and `rc3` are
the encoder levels that an edit loop samples. -/
def bodyStep (k : InnerLoop) (rc4 rc3 : Nat) (l : Locals) (s : State) : Locals × State :=
  match k with
  | InnerLoop.free => (l, freeRunningIter s)
  | InnerLoop.hours => editHoursIter rc4 rc3 l s
  | InnerLoop.mins => editMinsIter rc4 rc3 l s
  | InnerLoop.secs => editSecsIter rc4 rc3 l s

/-- One step of the main program.  At a test: the loop is entered if `currentMode`
has the value of the loop, otherwise control passes to the test of the next loop.
At a body: the body runs and control returns to the test of the same loop. -/
def mainStep (rc4 rc3 : Nat) (c : Config) : Config :=
  match c.pc with
  | Point.test k =>
    if c.st.currentMode = loopMode k then { c with pc := Point.body k }
    else { c with pc := Point.test (nextLoop k) }
  | Point.body k =>
    { pc := Point.test k, loc := (bodyStep k rc4 rc3 c.loc c.st).1,
      st := (bodyStep k rc4 rc3 c.loc c.st).2 }

/-- What can happen to the running program.

* `press`: the push button raises the external interrupt and `ISR_High` runs,
  between two steps of the main program, in particular between the test of a loop
  and its body.  Inside a body the external interrupt is disabled (`sendDataOut`,
  `latchOutData`) or the button branch writes none of the variables that the body
  reads or writes, so that a press inside a body acts as a press just before or
  just after it.
* `tick`: timer0 raises its flag and `ISR_High` runs, between two steps.  The timer
  is reloaded for one second in every tick and on entering free-running mode, so
  an overflow finds the main program in the free-running loop, before or after its
  test.  The flag is raised whether or not timer0 is running.
* `count h l`: timer0 has counted and its registers hold `h` and `l`; any values
  are admitted, also while the timer is stopped.
* `advance rc4 rc3`: the main program performs its next step; a body of an edit
  loop samples the encoder levels `rc4` (channel A) and `rc3` (channel B). -/
inductive Action where
  | press
  | tick
  | count (h l : Nat)
  | advance (rc4 rc3 : Nat)
  deriving DecidableEq, Repr

/-- Effect of one action on a configuration. -/
def act : Action → Config → Config
  | Action.press, c => { c with st := ISR_High (buttonEdge c.st) }
  | Action.tick, c => { c with st := ISR_High (timerOverflow c.st) }
  | Action.count h l, c => { c with st := { c.st with TMR0H := h, TMR0L := l } }
  | Action.advance rc4 rc3, c => mainStep rc4 rc3 c

/-- Effect of a sequence of actions, first action first. -/
def exec : List Action → Config → Config
  | [], c => c
  | a :: as, c => exec as (act a c)

/-- The configuration when `main` reaches its `while(1)`: timer0 just started, the
main program at the test of the free-running loop. -/
def startConfig : Config :=
  { pc := Point.test InnerLoop.free, loc := initLocals, st := powerOn }

/-- The configuration reached from power-on by a sequence of actions. -/
def reached (as : List Action) : Config := exec as startConfig

/-- From power-on to 11:59:59 in free-running mode: the first frame is sent, then one
detent down in each of the three edit modes (hours 12 to 11, minutes 0 to 59,
seconds 0 to 59), and a fourth press returns to the free-running loop. -/
def toLastSecond : List Action :=
  [Action.advance 0 0, Action.advance 0 0,
   Action.press, Action.advance 0 0, Action.advance 0 0, Action.advance 1 1,
   Action.press, Action.advance 1 1, Action.advance 1 1, Action.advance 0 0,
   Action.press, Action.advance 0 0, Action.advance 0 0, Action.advance 1 1,
   Action.press, Action.advance 1 1]

/-- After `toLastSecond`: the main program passes the test of the free-running loop,
the tick of 11:59:59 arrives and, before the body runs, a press is served. -/
def pressAfterTest : List Action :=
  toLastSecond ++ [Action.advance 1 1, Action.tick, Action.press]

/-- Modelled from the spec: the chain of six 8-bit shift registers and their output
latches is hardware outside the sources.  `reg` is the content of the chain, the
byte shifted in first at the head; `shown` is what the latches hold and the tubes
display.  A byte on the bus pushes the oldest byte out of the chain, and a pulse
on the latch line copies the chain to the outputs. -/
structure Panel where
  reg : List Nat
  shown : List Nat
  deriving DecidableEq, Repr

/-- The panel as the start-up code of `main` leaves it: six zero bytes shifted in
and latched, all tubes off. -/
def panelCleared : Panel :=
  { reg := [0, 0, 0, 0, 0, 0], shown := [0, 0, 0, 0, 0, 0] }

/-- Effect of one output event on the panel. -/
def panelStep (p : Panel) : Event → Panel
  | Event.byte b => { p with reg := p.reg.drop 1 ++ [b] }
  | Event.latch => { p with shown := p.reg }

/-- The panel after an output trace, starting from the cleared panel. -/
def panel (out : List Event) : Panel := out.foldl panelStep panelCleared

/-- A free-running state whose clock shows `t`, right after the main loop has
transmitted the frame of `t`. -/
def sentState (t : Nat) : State := freeRunningIter { powerOn with myTime := t }

/-! ## Exact integer arithmetic, for comparison with the 16-bit updates -/

/-- The two assignments to `myTime` of the EditHours loop, over the integers,
with no reduction of any intermediate value. -/
def hoursAssignExact (adjustHours myTime : Int) : Int :=
  let myTime := myTime - (myTime / 3600) * 3600
  myTime + adjustHours * 3600

/-- The two assignments to `myTime` of the EditMins loop, over the integers. -/
def minsAssignExact (adjustMins myTime : Int) : Int :=
  let myTime := myTime - ((myTime / 60) % 60) * 60
  myTime + adjustMins * 60

/-- The two assignments to `myTime` of the EditSecs loop, over the integers. -/
def secsAssignExact (adjustSecs myTime : Int) : Int :=
  let myTime := myTime - myTime % 60
  myTime + adjustSecs

/-! ## Auxiliary facts -/

theorem timeDigits_eq_refDigits (t : Nat) : timeDigits t = refDigits t := rfl

theorem refDigits_bounds (t : Nat) (ht : t < 43200) :
    (refDigits t).1 < 2 ∧ (refDigits t).2.1 < 10 ∧ (refDigits t).2.2.1 < 6 ∧
    (refDigits t).2.2.2.1 < 10 ∧ (refDigits t).2.2.2.2.1 < 6 ∧
    (refDigits t).2.2.2.2.2 < 10 := by
  simp only [refDigits]
  split <;> omega

theorem hourPair (h1 h0 : Nat) (a : h1 < 2) (b : h0 < 10) :
    u8 (0b00001111 &&& (((u16 (pow2 h1 <<< 2)) &&& 0b1100) ||| ((pow2 h0 >>> 8) &&& 0b11))) * 256
      + u8 (pow2 h0) = 2 ^ h1 * 1024 + 2 ^ h0 := by
  interval_cases h1 <;> interval_cases h0 <;> decide

theorem lowPair (m1 m0 : Nat) (a : m1 < 6) (b : m0 < 10) :
    u8 (((u16 (pow2 m1 <<< 2)) &&& 0b11111100) ||| ((pow2 m0 >>> 8) &&& 0b11)) * 256
      + u8 (pow2 m0) = 2 ^ m1 * 1024 + 2 ^ m0 := by
  interval_cases m1 <;> interval_cases m0 <;> decide

theorem frameValue_encodeDigits (h1 h0 m1 m0 s1 s0 : Nat)
    (a1 : h1 < 2) (a0 : h0 < 10) (b1 : m1 < 6) (b0 : m0 < 10) (c1 : s1 < 6) (c0 : s0 < 10) :
    frameValue (encodeDigits (h1, h0, m1, m0, s1, s0)) =
      2 ^ h1 * 2 ^ 42 + 2 ^ h0 * 2 ^ 32 + 2 ^ m1 * 2 ^ 26 + 2 ^ m0 * 2 ^ 16
        + 2 ^ s1 * 2 ^ 10 + 2 ^ s0 := by
  have hh := hourPair h1 h0 a1 a0
  have hm := lowPair m1 m0 b1 b0
  have hs := lowPair s1 s0 c1 c0
  simp only [frameValue, encodeDigits, List.foldl]
  omega

theorem field_pack (a b c d e f : Nat) (ha : a < 4) (hb : b < 1024) (hc : c < 64)
    (hd : d < 1024) (he : e < 64) (hf : f < 1024) :
    let v := a * 2 ^ 42 + b * 2 ^ 32 + c * 2 ^ 26 + d * 2 ^ 16 + e * 2 ^ 10 + f
    field v 42 2 = a ∧ field v 32 10 = b ∧ field v 26 6 = c ∧ field v 16 10 = d ∧
      field v 10 6 = e ∧ field v 0 10 = f ∧ field v 44 4 = 0 := by
  simp only [field]
  norm_num
  omega

theorem oneHotIndex_two (i : Nat) (h : i < 2) : oneHotIndex 2 (2 ^ i) = some i := by
  interval_cases i <;> decide

theorem oneHotIndex_six (i : Nat) (h : i < 6) : oneHotIndex 6 (2 ^ i) = some i := by
  interval_cases i <;> decide

theorem oneHotIndex_ten (i : Nat) (h : i < 10) : oneHotIndex 10 (2 ^ i) = some i := by
  interval_cases i <;> decide

theorem pow_lt_four (i : Nat) (h : i < 2) : 2 ^ i < 4 := by
  interval_cases i <;> decide

theorem pow_lt_sixtyfour (i : Nat) (h : i < 6) : 2 ^ i < 64 := by
  interval_cases i <;> decide

theorem pow_lt_1024 (i : Nat) (h : i < 10) : 2 ^ i < 1024 := by
  interval_cases i <;> decide

theorem pow2_eq (i : Nat) (h : i < 10) : pow2 i = 2 ^ i := by
  interval_cases i <;> decide

theorem sendDataOut_out (s : State) (h : s.myTime < 43200) :
    (sendDataOut s).out = s.out ++ (frameBytes s.myTime).map Event.byte := by
  have h2 : ¬ (s.myTime ≥ 43200) := by omega
  simp [sendDataOut, h2]

theorem decodeFrame_encodeDigits (h1 h0 m1 m0 s1 s0 : Nat)
    (a1 : h1 < 2) (a0 : h0 < 10) (b1 : m1 < 6) (b0 : m0 < 10) (c1 : s1 < 6) (c0 : s0 < 10) :
    decodeFrame (encodeDigits (h1, h0, m1, m0, s1, s0)) = some (h1, h0, m1, m0, s1, s0) := by
  have hv := frameValue_encodeDigits h1 h0 m1 m0 s1 s0 a1 a0 b1 b0 c1 c0
  have hf := field_pack (2 ^ h1) (2 ^ h0) (2 ^ m1) (2 ^ m0) (2 ^ s1) (2 ^ s0)
    (pow_lt_four h1 a1) (pow_lt_1024 h0 a0) (pow_lt_sixtyfour m1 b1) (pow_lt_1024 m0 b0)
    (pow_lt_sixtyfour s1 c1) (pow_lt_1024 s0 c0)
  simp only [] at hf
  obtain ⟨f1, f2, f3, f4, f5, f6, -⟩ := hf
  simp only [decodeFrame, hv, f1, f2, f3, f4, f5, f6, oneHotIndex_two h1 a1,
    oneHotIndex_ten h0 a0, oneHotIndex_six m1 b1, oneHotIndex_ten m0 b0,
    oneHotIndex_six s1 c1, oneHotIndex_ten s0 c0]

theorem popCount_split (a b : Nat) : ∀ x : Nat,
    popCount (a + b) x = popCount a (x % 2 ^ a) + popCount b (x / 2 ^ a) := by
  induction a with
  | zero => intro x; simp [popCount]
  | succ a ih =>
    intro x
    have e : a + 1 + b = (a + b) + 1 := by omega
    rw [e]
    simp only [popCount]
    rw [ih (x / 2)]
    have h1 : x % 2 ^ (a + 1) % 2 = x % 2 := by
      rw [pow_succ]
      exact Nat.mod_mul_left_mod x (2 ^ a) 2
    have h2 : x % 2 ^ (a + 1) / 2 = x / 2 % 2 ^ a := by
      rw [pow_succ, Nat.mul_comm, Nat.mod_mul_right_div_self]
    have h3 : x / 2 ^ (a + 1) = x / 2 / 2 ^ a := by
      rw [pow_succ, Nat.mul_comm, Nat.div_div_eq_div_mul]
    rw [h1, h2, h3]
    omega

theorem popCount_fields (v : Nat) :
    popCount 48 v = popCount 10 (field v 0 10) + popCount 6 (field v 10 6)
      + popCount 10 (field v 16 10) + popCount 6 (field v 26 6)
      + popCount 10 (field v 32 10) + popCount 2 (field v 42 2)
      + popCount 4 (field v 44 4) := by
  have e0 := popCount_split 10 38 v
  have e1 := popCount_split 6 32 (v / 2 ^ 10)
  have e2 := popCount_split 10 22 (v / 2 ^ 10 / 2 ^ 6)
  have e3 := popCount_split 6 16 (v / 2 ^ 10 / 2 ^ 6 / 2 ^ 10)
  have e4 := popCount_split 10 6 (v / 2 ^ 10 / 2 ^ 6 / 2 ^ 10 / 2 ^ 6)
  have e5 := popCount_split 2 4 (v / 2 ^ 10 / 2 ^ 6 / 2 ^ 10 / 2 ^ 6 / 2 ^ 10)
  have e6 := popCount_split 4 0 (v / 2 ^ 10 / 2 ^ 6 / 2 ^ 10 / 2 ^ 6 / 2 ^ 10 / 2 ^ 2)
  have z : ∀ x, popCount 0 x = 0 := fun _ => rfl
  simp only [Nat.div_div_eq_div_mul, z, Nat.add_zero] at e0 e1 e2 e3 e4 e5 e6
  norm_num at e0 e1 e2 e3 e4 e5 e6
  simp only [field]
  norm_num
  omega

theorem popCount_two (i : Nat) (h : i < 2) : popCount 2 (2 ^ i) = 1 := by
  interval_cases i <;> decide

theorem popCount_six (i : Nat) (h : i < 6) : popCount 6 (2 ^ i) = 1 := by
  interval_cases i <;> decide

theorem popCount_ten (i : Nat) (h : i < 10) : popCount 10 (2 ^ i) = 1 := by
  interval_cases i <;> decide

theorem firstByte_lt (h1 h0 : Nat) (a : h1 < 2) (b : h0 < 10) :
    u8 (0b00001111 &&& (((u16 (pow2 h1 <<< 2)) &&& 0b1100) ||| ((pow2 h0 >>> 8) &&& 0b11)))
      < 16 := by
  interval_cases h1 <;> interval_cases h0 <;> decide

theorem sendDataOut_myTime (s : State) (h : s.myTime < 43200) :
    (sendDataOut s).myTime = s.myTime := by
  have h2 : ¬ (s.myTime ≥ 43200) := by omega
  simp [sendDataOut, h2]

theorem latchOutData_myTime (s : State) : (latchOutData s).myTime = s.myTime := rfl

theorem hoursUpdate_eq (up : Bool) (t : Nat) (ht : t < 43200) :
    hoursUpdate up t =
      (if up then (t / 3600 + 1) % 12 else (t / 3600 + 11) % 12,
       (if up then (t / 3600 + 1) % 12 else (t / 3600 + 11) % 12) * 3600 + t % 3600) := by
  have h12 : t / 3600 < 12 := by omega
  have hsub : sub16 t (u16 (t / 3600 * 3600)) = t % 3600 := by
    simp only [sub16, u16]; omega
  have hr : t % 3600 < 3600 := Nat.mod_lt _ (by norm_num)
  simp only [hoursUpdate, hsub]
  generalize t / 3600 = h at h12 ⊢
  generalize t % 3600 = r at hr ⊢
  interval_cases h <;> cases up <;> simp [u8, u16] <;> omega

theorem minsUpdate_eq (up : Bool) (t : Nat) (ht : t < 43200) :
    minsUpdate up t =
      (if up then (t / 60 % 60 + 1) % 60 else (t / 60 % 60 + 59) % 60,
       t - (t / 60 % 60) * 60
         + (if up then (t / 60 % 60 + 1) % 60 else (t / 60 % 60 + 59) % 60) * 60) := by
  have h60 : t / 60 % 60 < 60 := by omega
  have hle : t / 60 % 60 * 60 ≤ t := by omega
  have hsub : sub16 t (u16 (t / 60 % 60 * 60)) = t - t / 60 % 60 * 60 := by
    simp only [sub16, u16]; omega
  have hb : t - t / 60 % 60 * 60 < 43200 := by omega
  simp only [minsUpdate, hsub]
  generalize t - t / 60 % 60 * 60 = r at hb ⊢
  generalize t / 60 % 60 = m at h60 ⊢
  interval_cases m <;> cases up <;> simp [u8, u16] <;> omega

theorem secsUpdate_eq (up : Bool) (t : Nat) (ht : t < 43200) :
    secsUpdate up t =
      (if up then (t % 60 + 1) % 60 else (t % 60 + 59) % 60,
       t - t % 60 + (if up then (t % 60 + 1) % 60 else (t % 60 + 59) % 60)) := by
  have h60 : t % 60 < 60 := by omega
  have hsub : sub16 t (t % 60) = t - t % 60 := by
    simp only [sub16]; omega
  have hb : t - t % 60 < 43200 := by omega
  simp only [secsUpdate, hsub]
  generalize t - t % 60 = r at hb ⊢
  generalize t % 60 = m at h60 ⊢
  interval_cases m <;> cases up <;> simp [u8, u16] <;> omega

theorem hoursUpdate_lt (up : Bool) (t : Nat) (ht : t < 43200) :
    (hoursUpdate up t).2 < 43200 := by
  rw [hoursUpdate_eq up t ht]
  cases up <;> simp <;> omega

theorem minsUpdate_lt (up : Bool) (t : Nat) (ht : t < 43200) :
    (minsUpdate up t).2 < 43200 := by
  rw [minsUpdate_eq up t ht]
  cases up <;> simp <;> omega

theorem secsUpdate_lt (up : Bool) (t : Nat) (ht : t < 43200) :
    (secsUpdate up t).2 < 43200 := by
  rw [secsUpdate_eq up t ht]
  cases up <;> simp <;> omega

theorem editHoursIter_rot (rc4 rc3 : Nat) (l : Locals) (s : State)
    (ht : s.myTime < 43200) (hrot : rc4 ≠ l.aState_prev) :
    (editHoursIter rc4 rc3 l s).2.myTime = (hoursUpdate (decide (rc4 ≠ rc3)) s.myTime).2 ∧
    (editHoursIter rc4 rc3 l s).1.aState_prev = rc4 := by
  have hl := hoursUpdate_lt (decide (rc4 ≠ rc3)) s.myTime ht
  simp only [editHoursIter, hrot, ne_eq, not_false_eq_true, if_true, latchOutData_myTime]
  exact ⟨sendDataOut_myTime _ hl, trivial⟩

theorem editMinsIter_rot (rc4 rc3 : Nat) (l : Locals) (s : State)
    (ht : s.myTime < 43200) (hrot : rc4 ≠ l.aState_prev) :
    (editMinsIter rc4 rc3 l s).2.myTime = (minsUpdate (decide (rc4 ≠ rc3)) s.myTime).2 ∧
    (editMinsIter rc4 rc3 l s).1.aState_prev = rc4 := by
  have hl := minsUpdate_lt (decide (rc4 ≠ rc3)) s.myTime ht
  simp only [editMinsIter, hrot, ne_eq, not_false_eq_true, if_true, latchOutData_myTime]
  exact ⟨sendDataOut_myTime _ hl, trivial⟩

theorem editSecsIter_rot (rc4 rc3 : Nat) (l : Locals) (s : State)
    (ht : s.myTime < 43200) (hrot : rc4 ≠ l.aState_prev) :
    (editSecsIter rc4 rc3 l s).2.myTime = (secsUpdate (decide (rc4 ≠ rc3)) s.myTime).2 ∧
    (editSecsIter rc4 rc3 l s).1.aState_prev = rc4 := by
  have hl := secsUpdate_lt (decide (rc4 ≠ rc3)) s.myTime ht
  simp only [editSecsIter, hrot, ne_eq, not_false_eq_true, if_true, latchOutData_myTime]
  exact ⟨sendDataOut_myTime _ hl, trivial⟩

theorem hoursUpdate_inverse (up : Bool) (t : Nat) (ht : t < 43200) :
    (hoursUpdate (!up) (hoursUpdate up t).2).2 = t := by
  rw [hoursUpdate_eq _ _ (hoursUpdate_lt up t ht), hoursUpdate_eq _ _ ht]
  cases up <;> simp <;> omega

theorem minsUpdate_inverse (up : Bool) (t : Nat) (ht : t < 43200) :
    (minsUpdate (!up) (minsUpdate up t).2).2 = t := by
  rw [minsUpdate_eq _ _ (minsUpdate_lt up t ht), minsUpdate_eq _ _ ht]
  cases up <;> simp <;> omega

theorem secsUpdate_inverse (up : Bool) (t : Nat) (ht : t < 43200) :
    (secsUpdate (!up) (secsUpdate up t).2).2 = t := by
  rw [secsUpdate_eq _ _ (secsUpdate_lt up t ht), secsUpdate_eq _ _ ht]
  cases up <;> simp <;> omega

theorem opposite_dir (a b c d : Nat) (h : (a ≠ b ∧ c = d) ∨ (a = b ∧ c ≠ d)) :
    decide (c ≠ d) = !(decide (a ≠ b)) := by
  rcases h with ⟨h1, h2⟩ | ⟨h1, h2⟩ <;> simp [h1, h2]

theorem buttonBranch_myTime (s : State) : (buttonBranch s).myTime = s.myTime := by
  simp only [buttonBranch]
  split_ifs <;> rfl

theorem tickBranch_myTime (s : State) : (tickBranch s).myTime = u16 (s.myTime + 1) := rfl

theorem ISR_High_tick_myTime (s : State) (hIE : s.TMR0IE = 1) (hIF : s.TMR0IF = 1) :
    (ISR_High s).myTime = u16 (s.myTime + 1) := by
  simp only [ISR_High, hIE, hIF, and_self, if_true]
  split_ifs
  · rw [buttonBranch_myTime, tickBranch_myTime]
  · rfl

theorem tickPeriod_step (s : State) (hm : s.currentMode = MODE_FREE_RUNNING)
    (hIE : s.TMR0IE = 1) (hF : s.INTF = 0) (ht : s.myTime < 43200) :
    (tickPeriod s).currentMode = MODE_FREE_RUNNING ∧ (tickPeriod s).TMR0IE = 1 ∧
    (tickPeriod s).INTF = 0 ∧ (tickPeriod s).myTime = (s.myTime + 1) % 43200 := by
  by_cases hw : 43200 ≤ s.myTime + 1
  · have e : (s.myTime + 1) % 65536 = 43200 := by omega
    have e2 : (s.myTime + 1) % 43200 = 0 := by omega
    simp [tickPeriod, timerOverflow, ISR_High, tickBranch, latchOutData, freeRunningIter,
      sendDataOut, hIE, hF, hm, u16, e, e2]
  · have e : (s.myTime + 1) % 65536 = s.myTime + 1 := by omega
    have e2 : (s.myTime + 1) % 43200 = s.myTime + 1 := by omega
    have e3 : ¬ (43200 ≤ s.myTime + 1) := hw
    simp [tickPeriod, timerOverflow, ISR_High, tickBranch, latchOutData, freeRunningIter,
      sendDataOut, hIE, hF, hm, u16, e, e2, e3]

theorem iter_tickPeriod (n : Nat) : ∀ s : State, s.currentMode = MODE_FREE_RUNNING →
    s.TMR0IE = 1 → s.INTF = 0 → s.myTime < 43200 →
    (iter tickPeriod n s).currentMode = MODE_FREE_RUNNING ∧
    (iter tickPeriod n s).myTime = (s.myTime + n) % 43200 := by
  induction n with
  | zero =>
    intro s hm _ _ ht
    exact ⟨hm, (Nat.mod_eq_of_lt ht).symm⟩
  | succ n ih =>
    intro s hm hIE hF ht
    obtain ⟨m1, i1, f1, t1⟩ := tickPeriod_step s hm hIE hF ht
    have lt1 : (tickPeriod s).myTime < 43200 := by
      rw [t1]; exact Nat.mod_lt _ (by norm_num)
    obtain ⟨m2, t2⟩ := ih (tickPeriod s) m1 i1 f1 lt1
    refine ⟨m2, ?_⟩
    show (iter tickPeriod n (tickPeriod s)).myTime = _
    rw [t2, t1]
    omega

theorem buttonBranch_mode (s : State) (hm : s.currentMode < 4) :
    (buttonBranch s).currentMode = (s.currentMode + 1) % 4 := by
  obtain ⟨m, t, w, ie, fl, inte, intf, en, th, tl, o⟩ := s
  simp only at hm
  interval_cases m <;> simp [buttonBranch, u8, MODE_FREE_RUNNING]

theorem ISR_High_button (s : State) (hE : s.INTE = 1) (hF : s.INTF = 1) :
    (ISR_High s).currentMode = (buttonBranch s).currentMode ∨
    (ISR_High s).currentMode = (buttonBranch (tickBranch s)).currentMode := by
  by_cases hc : s.TMR0IE = 1 ∧ s.TMR0IF = 1
  · right
    have h1 : (tickBranch s).INTE = 1 := rfl
    have h2 : (tickBranch s).INTF = 1 := hF
    simp only [ISR_High, hc, and_self, if_true, h1, h2]
  · left
    simp only [ISR_High, hc, if_false, hE, hF, and_self, if_true]

/-! ## Claims about the frame -/

/-- C1: for every state with `myTime = t` in [0,43199], `sendDataOut` appends the six
bytes `frameBytes t` to the bus, and reading back the index of the set bit in each
of the six digit fields gives the digits of the reference decomposition
(`S = t % 60`, `M = (t / 60) % 60`, `H = t / 3600` with 0 replaced by 12); the hour
pair denotes a number in 1..12. -/
theorem C1_decode_roundtrip (s : State) (h : s.myTime < 43200) :
    (sendDataOut s).out = s.out ++ (frameBytes s.myTime).map Event.byte ∧
    decodeFrame (frameBytes s.myTime) = some (refDigits s.myTime) ∧
    1 ≤ (refDigits s.myTime).1 * 10 + (refDigits s.myTime).2.1 ∧
    (refDigits s.myTime).1 * 10 + (refDigits s.myTime).2.1 ≤ 12 := by
  refine ⟨sendDataOut_out s h, ?_, ?_, ?_⟩
  · obtain ⟨a1, a0, b1, b0, c1, c0⟩ := refDigits_bounds s.myTime h
    rw [frameBytes, timeDigits_eq_refDigits]
    exact decodeFrame_encodeDigits _ _ _ _ _ _ a1 a0 b1 b0 c1 c0
  · simp only [refDigits]
    split <;> omega
  · simp only [refDigits]
    split <;> omega

/-- C1 at `t = 3600`: the decoded digits are (0,1,0,0,0,0). -/
theorem C1_decode_roundtrip_witness :
    (sampleState 3600).myTime < 43200 ∧
    decodeFrame (frameBytes 3600) = some (0, 1, 0, 0, 0, 0) :=
  ⟨by decide, (C1_decode_roundtrip (sampleState 3600) (by decide)).2.1⟩

/-- C2: for every state with `myTime = t` in [0,43199], each of the six digit fields
of the frame that `sendDataOut` emits (H1 = bits 43..42, H0 = 41..32, M1 = 31..26,
M0 = 25..16, S1 = 15..10, S0 = 9..0) holds exactly the one-hot value computed for
its digit, so nothing is lost to the masks or to the 8-bit stores; each field has
exactly one bit set and the 48 bits hold exactly six set bits. -/
theorem C2_one_hot_fields (s : State) (h : s.myTime < 43200) :
    (sendDataOut s).out = s.out ++ (frameBytes s.myTime).map Event.byte ∧
    (field (frameValue (frameBytes s.myTime)) 42 2 = pow2 (timeDigits s.myTime).1 ∧
     field (frameValue (frameBytes s.myTime)) 32 10 = pow2 (timeDigits s.myTime).2.1 ∧
     field (frameValue (frameBytes s.myTime)) 26 6 = pow2 (timeDigits s.myTime).2.2.1 ∧
     field (frameValue (frameBytes s.myTime)) 16 10 = pow2 (timeDigits s.myTime).2.2.2.1 ∧
     field (frameValue (frameBytes s.myTime)) 10 6 = pow2 (timeDigits s.myTime).2.2.2.2.1 ∧
     field (frameValue (frameBytes s.myTime)) 0 10 = pow2 (timeDigits s.myTime).2.2.2.2.2) ∧
    (popCount 2 (field (frameValue (frameBytes s.myTime)) 42 2) = 1 ∧
     popCount 10 (field (frameValue (frameBytes s.myTime)) 32 10) = 1 ∧
     popCount 6 (field (frameValue (frameBytes s.myTime)) 26 6) = 1 ∧
     popCount 10 (field (frameValue (frameBytes s.myTime)) 16 10) = 1 ∧
     popCount 6 (field (frameValue (frameBytes s.myTime)) 10 6) = 1 ∧
     popCount 10 (field (frameValue (frameBytes s.myTime)) 0 10) = 1) ∧
    popCount 48 (frameValue (frameBytes s.myTime)) = 6 := by
  obtain ⟨a1, a0, b1, b0, c1, c0⟩ := refDigits_bounds s.myTime h
  have hv := frameValue_encodeDigits _ _ _ _ _ _ a1 a0 b1 b0 c1 c0
  have hf := field_pack _ _ _ _ _ _
    (pow_lt_four _ a1) (pow_lt_1024 _ a0) (pow_lt_sixtyfour _ b1) (pow_lt_1024 _ b0)
    (pow_lt_sixtyfour _ c1) (pow_lt_1024 _ c0)
  simp only [] at hf
  rw [← hv] at hf
  obtain ⟨f1, f2, f3, f4, f5, f6, f7⟩ := hf
  have hp := popCount_fields (frameValue (frameBytes s.myTime))
  simp only [frameBytes, timeDigits_eq_refDigits] at hp ⊢
  rw [f1, f2, f3, f4, f5, f6, f7] at hp
  rw [f1, f2, f3, f4, f5, f6]
  have p1 := popCount_two _ a1
  have p2 := popCount_ten _ a0
  have p3 := popCount_six _ b1
  have p4 := popCount_ten _ b0
  have p5 := popCount_six _ c1
  have p6 := popCount_ten _ c0
  refine ⟨?_, ⟨?_, ?_, ?_, ?_, ?_, ?_⟩, ⟨p1, p2, p3, p4, p5, p6⟩, ?_⟩
  · have := sendDataOut_out s h
    simpa only [frameBytes, timeDigits_eq_refDigits] using this
  · exact (pow2_eq _ (by omega)).symm
  · exact (pow2_eq _ a0).symm
  · exact (pow2_eq _ (by omega)).symm
  · exact (pow2_eq _ b0).symm
  · exact (pow2_eq _ (by omega)).symm
  · exact (pow2_eq _ c0).symm
  · rw [hp, p1, p2, p3, p4, p5, p6]
    rfl

/-- C2 at `t = 0`: bit 1 of H1, bit 2 of H0 and bit 0 of the four other fields. -/
theorem C2_one_hot_fields_witness :
    (sampleState 0).myTime < 43200 ∧
    (field (frameValue (frameBytes 0)) 42 2 = 2 ^ 1 ∧
     field (frameValue (frameBytes 0)) 32 10 = 2 ^ 2 ∧
     field (frameValue (frameBytes 0)) 26 6 = 2 ^ 0 ∧
     field (frameValue (frameBytes 0)) 16 10 = 2 ^ 0 ∧
     field (frameValue (frameBytes 0)) 10 6 = 2 ^ 0 ∧
     field (frameValue (frameBytes 0)) 0 10 = 2 ^ 0) ∧
    popCount 48 (frameValue (frameBytes 0)) = 6 :=
  ⟨by decide, (C2_one_hot_fields (sampleState 0) (by decide)).2.1,
    (C2_one_hot_fields (sampleState 0) (by decide)).2.2.2⟩

/-- C3: for every state with `myTime = t` in [0,43199], `sendDataOut` appends exactly
six bytes to the bus; read most-significant byte first they form the number
`2^(42+h1) + 2^(32+h0) + 2^(26+m1) + 2^(16+m0) + 2^(10+s1) + 2^s0` for the digits of
`t`, the first byte is below 16 (its upper four bits are zero) and the number is
below `2^44`. -/
theorem C3_frame_layout (s : State) (h : s.myTime < 43200) :
    (sendDataOut s).out = s.out ++ (frameBytes s.myTime).map Event.byte ∧
    (frameBytes s.myTime).length = 6 ∧
    frameValue (frameBytes s.myTime) =
      2 ^ (42 + (refDigits s.myTime).1) + 2 ^ (32 + (refDigits s.myTime).2.1)
        + 2 ^ (26 + (refDigits s.myTime).2.2.1) + 2 ^ (16 + (refDigits s.myTime).2.2.2.1)
        + 2 ^ (10 + (refDigits s.myTime).2.2.2.2.1) + 2 ^ (refDigits s.myTime).2.2.2.2.2 ∧
    (frameBytes s.myTime).headD 0 < 16 ∧
    frameValue (frameBytes s.myTime) < 2 ^ 44 := by
  obtain ⟨a1, a0, b1, b0, c1, c0⟩ := refDigits_bounds s.myTime h
  have hv := frameValue_encodeDigits _ _ _ _ _ _ a1 a0 b1 b0 c1 c0
  have q1 := pow_lt_four _ a1
  have q2 := pow_lt_1024 _ a0
  have q3 := pow_lt_sixtyfour _ b1
  have q4 := pow_lt_1024 _ b0
  have q5 := pow_lt_sixtyfour _ c1
  have q6 := pow_lt_1024 _ c0
  have hb := firstByte_lt _ _ a1 a0
  refine ⟨sendDataOut_out s h, rfl, ?_, ?_, ?_⟩
  · rw [frameBytes, timeDigits_eq_refDigits, hv]
    simp only [pow_add]
    ring
  · rw [frameBytes, timeDigits_eq_refDigits]
    exact hb
  · rw [frameBytes, timeDigits_eq_refDigits, hv]
    omega

/-- C3 at `t = 43199` (11:59:59): the frame is `2^43 + 2^33 + 2^31 + 2^25 + 2^15 + 2^9`. -/
theorem C3_frame_layout_witness :
    (sampleState 43199).myTime < 43200 ∧
    (frameBytes 43199).length = 6 ∧
    frameValue (frameBytes 43199) = 2 ^ 43 + 2 ^ 33 + 2 ^ 31 + 2 ^ 25 + 2 ^ 15 + 2 ^ 9 :=
  ⟨by decide, (C3_frame_layout (sampleState 43199) (by decide)).2.1,
    (C3_frame_layout (sampleState 43199) (by decide)).2.2.1⟩

/-! ## Claims about the edit loops -/

/-- C4: for every ClockTime `t` in [0,43199] with `h = t / 3600`, an iteration of the
EditHours loop that detects a rotation sets `myTime` to `((h+1) mod 12)*3600 + t%3600`
on an increment (channel A differs from channel B) and to
`((h+11) mod 12)*3600 + t%3600` on a decrement; the new hour field is below 12 and
the minute and second fields are unchanged. -/
theorem C4_hour_adjust (rc4 rc3 : Nat) (l : Locals) (s : State)
    (ht : s.myTime < 43200) (hrot : rc4 ≠ l.aState_prev) :
    (rc4 ≠ rc3 → (editHoursIter rc4 rc3 l s).2.myTime
        = ((s.myTime / 3600 + 1) % 12) * 3600 + s.myTime % 3600) ∧
    (rc4 = rc3 → (editHoursIter rc4 rc3 l s).2.myTime
        = ((s.myTime / 3600 + 11) % 12) * 3600 + s.myTime % 3600) ∧
    (editHoursIter rc4 rc3 l s).2.myTime / 3600 < 12 ∧
    (editHoursIter rc4 rc3 l s).2.myTime % 3600 = s.myTime % 3600 := by
  have e := (editHoursIter_rot rc4 rc3 l s ht hrot).1
  rw [hoursUpdate_eq _ _ ht] at e
  rw [e]
  refine ⟨?_, ?_, ?_, ?_⟩
  · intro hne
    simp [hne]
  · intro heq
    simp [heq]
  · split <;> omega
  · split <;> omega

/-- C4 at 11:59:59 going up (hour field 11 to 0) and 12:00:07 going down (0 to 11). -/
theorem C4_hour_adjust_witness :
    (editHoursIter 1 0 initLocals (editState 1 43199)).2.myTime = 3599 ∧
    (editHoursIter 1 1 initLocals (editState 1 7)).2.myTime = 39607 :=
  ⟨(C4_hour_adjust 1 0 initLocals (editState 1 43199) (by decide) (by decide)).1 (by decide),
   (C4_hour_adjust 1 1 initLocals (editState 1 7) (by decide) (by decide)).2.1 rfl⟩

/-- C5: for every ClockTime `t` in [0,43199] with `m = (t/60) % 60`, an iteration of the
EditMins loop that detects a rotation sets `myTime` to `t - m*60 + ((m+1) mod 60)*60`
on an increment and to `t - m*60 + ((m+59) mod 60)*60` on a decrement; the hour
field and the second field are unchanged and the new minute field is below 60. -/
theorem C5_minute_adjust (rc4 rc3 : Nat) (l : Locals) (s : State)
    (ht : s.myTime < 43200) (hrot : rc4 ≠ l.aState_prev) :
    (rc4 ≠ rc3 → (editMinsIter rc4 rc3 l s).2.myTime
        = s.myTime - (s.myTime / 60 % 60) * 60 + ((s.myTime / 60 % 60 + 1) % 60) * 60) ∧
    (rc4 = rc3 → (editMinsIter rc4 rc3 l s).2.myTime
        = s.myTime - (s.myTime / 60 % 60) * 60 + ((s.myTime / 60 % 60 + 59) % 60) * 60) ∧
    (rc4 ≠ rc3 → (editMinsIter rc4 rc3 l s).2.myTime / 60 % 60
        = (s.myTime / 60 % 60 + 1) % 60) ∧
    (rc4 = rc3 → (editMinsIter rc4 rc3 l s).2.myTime / 60 % 60
        = (s.myTime / 60 % 60 + 59) % 60) ∧
    (editMinsIter rc4 rc3 l s).2.myTime / 3600 = s.myTime / 3600 ∧
    (editMinsIter rc4 rc3 l s).2.myTime % 60 = s.myTime % 60 := by
  have e := (editMinsIter_rot rc4 rc3 l s ht hrot).1
  rw [minsUpdate_eq _ _ ht] at e
  rw [e]
  refine ⟨?_, ?_, ?_, ?_, ?_, ?_⟩
  · intro hne
    simp [hne]
  · intro heq
    simp [heq]
  · intro hne
    simp only [ne_eq, hne, not_false_eq_true, decide_True, if_true]
    omega
  · intro heq
    simp only [ne_eq, heq, not_true_eq_false, decide_False, Bool.false_eq_true, if_false]
    omega
  · split <;> omega
  · split <;> omega

/-- C5 at 03:59:21, one increment: the minute field becomes 0, hour and second stay. -/
theorem C5_minute_adjust_witness :
    (editState 2 14361).myTime / 60 % 60 = 59 ∧
    (editMinsIter 1 0 initLocals (editState 2 14361)).2.myTime / 60 % 60 = 0 ∧
    (editMinsIter 1 0 initLocals (editState 2 14361)).2.myTime / 3600 = 3 ∧
    (editMinsIter 1 0 initLocals (editState 2 14361)).2.myTime % 60 = 21 :=
  ⟨by decide,
   (C5_minute_adjust 1 0 initLocals (editState 2 14361) (by decide) (by decide)).2.2.1
     (by decide),
   (C5_minute_adjust 1 0 initLocals (editState 2 14361) (by decide) (by decide)).2.2.2.2.1,
   (C5_minute_adjust 1 0 initLocals (editState 2 14361) (by decide) (by decide)).2.2.2.2.2⟩

/-- C6: for every ClockTime `t` in [0,43199] with `s = t % 60`, an iteration of the
EditSecs loop that detects a rotation sets `myTime` to `t - s + ((s+1) mod 60)` on an
increment and to `t - s + ((s+59) mod 60)` on a decrement, and `t / 60` (the hour and
minute fields) is unchanged. -/
theorem C6_second_adjust (rc4 rc3 : Nat) (l : Locals) (s : State)
    (ht : s.myTime < 43200) (hrot : rc4 ≠ l.aState_prev) :
    (rc4 ≠ rc3 → (editSecsIter rc4 rc3 l s).2.myTime
        = s.myTime - s.myTime % 60 + (s.myTime % 60 + 1) % 60) ∧
    (rc4 = rc3 → (editSecsIter rc4 rc3 l s).2.myTime
        = s.myTime - s.myTime % 60 + (s.myTime % 60 + 59) % 60) ∧
    (rc4 ≠ rc3 → (editSecsIter rc4 rc3 l s).2.myTime % 60 = (s.myTime % 60 + 1) % 60) ∧
    (rc4 = rc3 → (editSecsIter rc4 rc3 l s).2.myTime % 60 = (s.myTime % 60 + 59) % 60) ∧
    (editSecsIter rc4 rc3 l s).2.myTime / 60 = s.myTime / 60 := by
  have e := (editSecsIter_rot rc4 rc3 l s ht hrot).1
  rw [secsUpdate_eq _ _ ht] at e
  rw [e]
  refine ⟨?_, ?_, ?_, ?_, ?_⟩
  · intro hne
    simp [hne]
  · intro heq
    simp [heq]
  · intro hne
    simp only [ne_eq, hne, not_false_eq_true, decide_True, if_true]
    omega
  · intro heq
    simp only [ne_eq, heq, not_true_eq_false, decide_False, Bool.false_eq_true, if_false]
    omega
  · split <;> omega

/-- C6 at 11:59:59 going up (second field 59 to 0) and 12:00:00 going down (0 to 59). -/
theorem C6_second_adjust_witness :
    (editSecsIter 1 0 initLocals (editState 3 43199)).2.myTime = 43140 ∧
    (editSecsIter 1 1 initLocals (editState 3 0)).2.myTime = 59 :=
  ⟨(C6_second_adjust 1 0 initLocals (editState 3 43199) (by decide) (by decide)).1 (by decide),
   (C6_second_adjust 1 1 initLocals (editState 3 0) (by decide) (by decide)).2.1 rfl⟩

/-- C7: for every ClockTime `t` in [0,43199], two consecutive detected rotations in
opposite directions (increment then decrement, or decrement then increment) in the
EditHours loop leave `myTime` equal to `t`; the same holds in the EditMins loop and
in the EditSecs loop. -/
theorem C7_adjust_roundtrip (a b c d : Nat) (l : Locals) (s : State)
    (ht : s.myTime < 43200) (hrot : a ≠ l.aState_prev) (hrot2 : c ≠ a)
    (hdir : (a ≠ b ∧ c = d) ∨ (a = b ∧ c ≠ d)) :
    (editHoursIter c d (editHoursIter a b l s).1 (editHoursIter a b l s).2).2.myTime
      = s.myTime ∧
    (editMinsIter c d (editMinsIter a b l s).1 (editMinsIter a b l s).2).2.myTime
      = s.myTime ∧
    (editSecsIter c d (editSecsIter a b l s).1 (editSecsIter a b l s).2).2.myTime
      = s.myTime := by
  have hd := opposite_dir a b c d hdir
  refine ⟨?_, ?_, ?_⟩
  · obtain ⟨e1, p1⟩ := editHoursIter_rot a b l s ht hrot
    have lt1 : (editHoursIter a b l s).2.myTime < 43200 := by
      rw [e1]; exact hoursUpdate_lt _ _ ht
    have e2 := (editHoursIter_rot c d _ _ lt1 (by rw [p1]; exact hrot2)).1
    rw [e2, e1, hd]
    exact hoursUpdate_inverse _ _ ht
  · obtain ⟨e1, p1⟩ := editMinsIter_rot a b l s ht hrot
    have lt1 : (editMinsIter a b l s).2.myTime < 43200 := by
      rw [e1]; exact minsUpdate_lt _ _ ht
    have e2 := (editMinsIter_rot c d _ _ lt1 (by rw [p1]; exact hrot2)).1
    rw [e2, e1, hd]
    exact minsUpdate_inverse _ _ ht
  · obtain ⟨e1, p1⟩ := editSecsIter_rot a b l s ht hrot
    have lt1 : (editSecsIter a b l s).2.myTime < 43200 := by
      rw [e1]; exact secsUpdate_lt _ _ ht
    have e2 := (editSecsIter_rot c d _ _ lt1 (by rw [p1]; exact hrot2)).1
    rw [e2, e1, hd]
    exact secsUpdate_inverse _ _ ht

/-- C7 at 12:00:00: increment then decrement in each of the three edit loops. -/
theorem C7_adjust_roundtrip_witness :
    (editHoursIter 0 0 (editHoursIter 1 0 initLocals (editState 1 0)).1
      (editHoursIter 1 0 initLocals (editState 1 0)).2).2.myTime = 0 ∧
    (editMinsIter 0 0 (editMinsIter 1 0 initLocals (editState 1 0)).1
      (editMinsIter 1 0 initLocals (editState 1 0)).2).2.myTime = 0 ∧
    (editSecsIter 0 0 (editSecsIter 1 0 initLocals (editState 1 0)).1
      (editSecsIter 1 0 initLocals (editState 1 0)).2).2.myTime = 0 :=
  C7_adjust_roundtrip 1 0 0 0 initLocals (editState 1 0) (by decide) (by decide) (by decide)
    (Or.inl ⟨by decide, rfl⟩)

/-! ## Claims about the interrupt routine -/

/-- C8 fails as stated: at 11:59:59 (`myTime = 43199`) the timer branch of `ISR_High`
leaves `myTime = 43200`, which is neither `(43199 + 1) mod 43200 = 0` nor inside
[0,43199]. -/
theorem C8_counterexample :
    (ISR_High (timerOverflow (sampleState 43199))).myTime = 43200 ∧
    (ISR_High (timerOverflow (sampleState 43199))).myTime ≠ (43199 + 1) % 43200 ∧
    ¬ (ISR_High (timerOverflow (sampleState 43199))).myTime < 43200 := by
  decide

/-- C8 as amended: for every `t` in [0,43199], after `ISR_High` runs its timer branch
with `myTime = t`, `myTime` equals `t + 1` (so it lies in [1,43200]); the reduction
modulo 43200 is done by the overflow guard of the next `sendDataOut`, after which
`myTime` equals `(t + 1) mod 43200` and lies in [0,43199]. -/
theorem C8_tick_increment (s : State) (hIE : s.TMR0IE = 1) (hIF : s.TMR0IF = 1)
    (ht : s.myTime < 43200) :
    (ISR_High s).myTime = s.myTime + 1 ∧
    (sendDataOut (ISR_High s)).myTime = (s.myTime + 1) % 43200 ∧
    (sendDataOut (ISR_High s)).myTime < 43200 := by
  have e : (ISR_High s).myTime = s.myTime + 1 := by
    rw [ISR_High_tick_myTime s hIE hIF, u16]
    omega
  have e2 : (sendDataOut (ISR_High s)).myTime = (s.myTime + 1) % 43200 := by
    by_cases hw : 43200 ≤ s.myTime + 1
    · have e3 : (s.myTime + 1) % 43200 = 0 := by omega
      simp [sendDataOut, e, hw, e3]
    · have e3 : (s.myTime + 1) % 43200 = s.myTime + 1 := by omega
      simp [sendDataOut, e, hw, e3]
  refine ⟨e, e2, ?_⟩
  rw [e2]
  exact Nat.mod_lt _ (by norm_num)

/-- C8 as amended, at 11:59:59: the tick gives 43200 and the next `sendDataOut` gives 0. -/
theorem C8_tick_increment_witness :
    (ISR_High (timerOverflow (sampleState 43199))).myTime = 43199 + 1 ∧
    (sendDataOut (ISR_High (timerOverflow (sampleState 43199)))).myTime
      = (43199 + 1) % 43200 :=
  ⟨(C8_tick_increment (timerOverflow (sampleState 43199)) rfl rfl (by decide)).1,
   (C8_tick_increment (timerOverflow (sampleState 43199)) rfl rfl (by decide)).2.1⟩

/-- C9: from every free-running state with `myTime = t` in [0,43199] and no button
press pending, 43200 consecutive tick periods (timer branch of `ISR_High`, then the
main loop iteration with its `sendDataOut`) bring `myTime` back to `t`, and no
smaller positive number of periods does. -/
theorem C9_full_cycle (s : State) (hm : s.currentMode = MODE_FREE_RUNNING)
    (hIE : s.TMR0IE = 1) (hF : s.INTF = 0) (ht : s.myTime < 43200) :
    (iter tickPeriod 43200 s).myTime = s.myTime ∧
    ∀ n, 0 < n → n < 43200 → (iter tickPeriod n s).myTime ≠ s.myTime := by
  refine ⟨?_, ?_⟩
  · rw [(iter_tickPeriod 43200 s hm hIE hF ht).2]
    omega
  · intro n h0 hn
    rw [(iter_tickPeriod n s hm hIE hF ht).2]
    omega

/-- C9 from power-on: 43200 periods return to 0 and one period does not. -/
theorem C9_full_cycle_witness :
    (iter tickPeriod 43200 powerOn).myTime = powerOn.myTime ∧
    (iter tickPeriod 1 powerOn).myTime ≠ powerOn.myTime :=
  ⟨(C9_full_cycle powerOn rfl rfl rfl (by decide)).1,
   (C9_full_cycle powerOn rfl rfl rfl (by decide)).2 1 (by decide) (by decide)⟩

/-- C10: for every `currentMode` among the four defined values, `ISR_High` handling one
button press (external interrupt enabled, flag raised) sets `currentMode` to
`(currentMode + 1) mod 4`, which is again one of the four values. -/
theorem C10_mode_cycle (s : State) (hE : s.INTE = 1) (hm : s.currentMode < 4) :
    (ISR_High (buttonEdge s)).currentMode = (s.currentMode + 1) % 4 ∧
    (ISR_High (buttonEdge s)).currentMode < 4 := by
  have hb := buttonBranch_mode (buttonEdge s) hm
  have hb2 := buttonBranch_mode (tickBranch (buttonEdge s)) hm
  have e1 : (buttonEdge s).currentMode = s.currentMode := rfl
  have e2 : (tickBranch (buttonEdge s)).currentMode = s.currentMode := rfl
  rw [e1] at hb
  rw [e2] at hb2
  have hlt : (s.currentMode + 1) % 4 < 4 := Nat.mod_lt _ (by norm_num)
  rcases ISR_High_button (buttonEdge s) hE rfl with h | h
  · rw [h, hb]
    exact ⟨rfl, hlt⟩
  · rw [h, hb2]
    exact ⟨rfl, hlt⟩

/-- C10 on the four modes: 0 to 1, 1 to 2, 2 to 3 and 3 to 0. -/
theorem C10_mode_cycle_witness :
    (ISR_High (buttonEdge powerOn)).currentMode = MODE_EDIT_HOURS ∧
    (ISR_High (buttonEdge (editState 1 0))).currentMode = MODE_EDIT_MINS ∧
    (ISR_High (buttonEdge (editState 2 0))).currentMode = MODE_EDIT_SECS ∧
    (ISR_High (buttonEdge (editState 3 0))).currentMode = MODE_FREE_RUNNING :=
  ⟨(C10_mode_cycle powerOn rfl (by decide)).1,
   (C10_mode_cycle (editState 1 0) rfl (by decide)).1,
   (C10_mode_cycle (editState 2 0) rfl (by decide)).1,
   (C10_mode_cycle (editState 3 0) rfl (by decide)).1⟩

/-! ## Auxiliary facts about executions -/

theorem buttonBranch_armed (s : State) :
    (buttonBranch s).currentMode < 4 ∧ (buttonBranch s).INTE = s.INTE ∧
    (buttonBranch s).INTF = 0 ∧ (buttonBranch s).TMR0IF = 0 ∧
    ((buttonBranch s).currentMode = MODE_FREE_RUNNING →
      (buttonBranch s).TMR0IE = 1 ∧ (buttonBranch s).T0EN = 1 ∧
      (buttonBranch s).TMR0H = 0x44 ∧ (buttonBranch s).TMR0L = 0x80) ∧
    ((buttonBranch s).currentMode ≠ MODE_FREE_RUNNING →
      (buttonBranch s).TMR0IE = 0 ∧ (buttonBranch s).T0EN = 0) := by
  simp only [buttonBranch, MODE_FREE_RUNNING]
  split_ifs <;> simp_all

theorem sendDataOut_regs (s : State) :
    (sendDataOut s).currentMode = s.currentMode ∧ (sendDataOut s).waitFlag = s.waitFlag ∧
    (sendDataOut s).TMR0IE = s.TMR0IE ∧ (sendDataOut s).TMR0IF = s.TMR0IF ∧
    (sendDataOut s).INTE = 1 ∧ (sendDataOut s).INTF = s.INTF ∧
    (sendDataOut s).T0EN = s.T0EN ∧ (sendDataOut s).TMR0H = s.TMR0H ∧
    (sendDataOut s).TMR0L = s.TMR0L := by
  simp only [sendDataOut]
  split_ifs <;> simp

theorem press_eq (s : State) (hE : s.INTE = 1) (hp : ¬ (s.TMR0IE = 1 ∧ s.TMR0IF = 1)) :
    ISR_High (buttonEdge s) = buttonBranch (buttonEdge s) := by
  have h1 : ¬ ((buttonEdge s).TMR0IE = 1 ∧ (buttonEdge s).TMR0IF = 1) := hp
  have h2 : (buttonEdge s).INTE = 1 ∧ (buttonEdge s).INTF = 1 := ⟨hE, rfl⟩
  simp only [ISR_High, h1, if_false, h2, and_self, if_true]

theorem tick_eq (s : State) (hF : s.INTF = 0) :
    ISR_High (timerOverflow s) = if s.TMR0IE = 1 then tickBranch (timerOverflow s)
      else timerOverflow s := by
  by_cases h : s.TMR0IE = 1
  · have h1 : (timerOverflow s).TMR0IE = 1 ∧ (timerOverflow s).TMR0IF = 1 := ⟨h, rfl⟩
    have h2 : ¬ ((tickBranch (timerOverflow s)).INTE = 1 ∧
        (tickBranch (timerOverflow s)).INTF = 1) := by
      intro hh
      have : s.INTF = 1 := hh.2
      omega
    simp only [ISR_High, h1, and_self, if_true, h2, if_false, h]
  · have h1 : ¬ ((timerOverflow s).TMR0IE = 1 ∧ (timerOverflow s).TMR0IF = 1) :=
      fun hh => h hh.1
    have h2 : ¬ ((timerOverflow s).INTE = 1 ∧ (timerOverflow s).INTF = 1) := by
      intro hh
      have : s.INTF = 1 := hh.2
      omega
    simp only [ISR_High, h1, if_false, h2, h]

theorem powerOn_armed : armedInv powerOn := by
  refine ⟨by decide, rfl, rfl, by decide, fun _ => ⟨rfl, rfl⟩, fun h => absurd rfl h⟩

theorem press_mode (s : State) (hE : s.INTE = 1) (hm : s.currentMode < 4) :
    (ISR_High (buttonEdge s)).currentMode = (s.currentMode + 1) % 4 ∧
    (ISR_High (buttonEdge s)).INTE = 1 := by
  have hb := buttonBranch_mode (buttonEdge s) hm
  have hb2 := buttonBranch_mode (tickBranch (buttonEdge s)) hm
  have e1 : (buttonEdge s).currentMode = s.currentMode := rfl
  have e2 : (tickBranch (buttonEdge s)).currentMode = s.currentMode := rfl
  rw [e1] at hb
  rw [e2] at hb2
  by_cases hc : (buttonEdge s).TMR0IE = 1 ∧ (buttonEdge s).TMR0IF = 1
  · have h1 : (tickBranch (buttonEdge s)).INTE = 1 ∧ (tickBranch (buttonEdge s)).INTF = 1 :=
      ⟨rfl, rfl⟩
    have e : ISR_High (buttonEdge s) = buttonBranch (tickBranch (buttonEdge s)) := by
      simp only [ISR_High, hc, and_self, if_true, h1]
    rw [e]
    exact ⟨hb2, (buttonBranch_armed _).2.1.trans rfl⟩
  · have h1 : (buttonEdge s).INTE = 1 ∧ (buttonEdge s).INTF = 1 := ⟨hE, rfl⟩
    have e : ISR_High (buttonEdge s) = buttonBranch (buttonEdge s) := by
      simp only [ISR_High, hc, if_false, h1, and_self, if_true]
    rw [e]
    exact ⟨hb, (buttonBranch_armed _).2.1.trans hE⟩

theorem buttonBranch_from (s : State) (m : Nat) (hm : s.currentMode = m) (h4 : m < 4) :
    (buttonBranch s).currentMode = (m + 1) % 4 := by
  rw [← hm]
  exact buttonBranch_mode s (by omega)

theorem buttonBranch_keeps (s : State) :
    (buttonBranch s).myTime = s.myTime ∧ (buttonBranch s).waitFlag = s.waitFlag ∧
    (buttonBranch s).out = s.out := by
  simp only [buttonBranch]
  split_ifs <;> simp

theorem ISR_High_no_tick (s : State) (h : s.TMR0IE = 0) :
    ISR_High s = if s.INTE = 1 ∧ s.INTF = 1 then buttonBranch s else s := by
  have h1 : ¬ (s.TMR0IE = 1 ∧ s.TMR0IF = 1) := by
    intro hh
    omega
  simp only [ISR_High, h1, if_false]

theorem ISR_High_no_tick_keeps (s : State) (h : s.TMR0IE = 0) :
    (ISR_High s).myTime = s.myTime ∧ (ISR_High s).waitFlag = s.waitFlag ∧
    (ISR_High s).out = s.out := by
  rw [ISR_High_no_tick s h]
  split_ifs
  · exact buttonBranch_keeps s
  · exact ⟨rfl, rfl, rfl⟩

/-! ## Claims about the modes and the tick source -/

/-- C11: from every state whose mode is one of the four (external interrupt enabled),
four button presses bring `currentMode` back to the starting mode, and one, two or
three presses leave it different from the starting mode. -/
theorem C11_four_presses (l : Locals) (s : State) (hE : s.INTE = 1)
    (hm : s.currentMode < 4) :
    (run (List.replicate 4 Input.press) (l, s)).2.currentMode = s.currentMode ∧
    (run (List.replicate 1 Input.press) (l, s)).2.currentMode ≠ s.currentMode ∧
    (run (List.replicate 2 Input.press) (l, s)).2.currentMode ≠ s.currentMode ∧
    (run (List.replicate 3 Input.press) (l, s)).2.currentMode ≠ s.currentMode := by
  obtain ⟨m1, i1⟩ := press_mode s hE hm
  have l1 : (ISR_High (buttonEdge s)).currentMode < 4 := by rw [m1]; omega
  obtain ⟨m2, i2⟩ := press_mode _ i1 l1
  have l2 : (ISR_High (buttonEdge (ISR_High (buttonEdge s)))).currentMode < 4 := by
    rw [m2]; omega
  obtain ⟨m3, i3⟩ := press_mode _ i2 l2
  have l3 : (ISR_High (buttonEdge (ISR_High (buttonEdge
      (ISR_High (buttonEdge s)))))).currentMode < 4 := by
    rw [m3]; omega
  obtain ⟨m4, -⟩ := press_mode _ i3 l3
  simp only [List.replicate, run, step]
  rw [m4, m3, m2, m1]
  omega

/-- C11 from EditMins: four presses return to EditMins, three do not. -/
theorem C11_four_presses_witness :
    (run (List.replicate 4 Input.press) (initLocals, editState 2 100)).2.currentMode
      = MODE_EDIT_MINS ∧
    (run (List.replicate 3 Input.press) (initLocals, editState 2 100)).2.currentMode
      ≠ MODE_EDIT_MINS :=
  ⟨(C11_four_presses initLocals (editState 2 100) rfl (by decide)).1,
   (C11_four_presses initLocals (editState 2 100) rfl (by decide)).2.2.2⟩

theorem sendDataOut_out_ge (s : State) (h : s.myTime ≥ 43200) :
    (sendDataOut s).myTime = 0 ∧
    (sendDataOut s).out = s.out ++ (frameBytes 0).map Event.byte := by
  simp [sendDataOut, h]

theorem editHoursIter_out (rc4 rc3 : Nat) (l : Locals) (s : State)
    (hrot : rc4 ≠ l.aState_prev) :
    (editHoursIter rc4 rc3 l s).2.out =
      s.out ++ (frameBytes (editHoursIter rc4 rc3 l s).2.myTime).map Event.byte
        ++ [Event.latch] := by
  simp only [editHoursIter, hrot, ne_eq, not_false_eq_true, if_true, latchOutData,
    sendDataOut]
  split_ifs <;> rfl

theorem editMinsIter_out (rc4 rc3 : Nat) (l : Locals) (s : State)
    (hrot : rc4 ≠ l.aState_prev) :
    (editMinsIter rc4 rc3 l s).2.out =
      s.out ++ (frameBytes (editMinsIter rc4 rc3 l s).2.myTime).map Event.byte
        ++ [Event.latch] := by
  simp only [editMinsIter, hrot, ne_eq, not_false_eq_true, if_true, latchOutData,
    sendDataOut]
  split_ifs <;> rfl

theorem editSecsIter_out (rc4 rc3 : Nat) (l : Locals) (s : State)
    (hrot : rc4 ≠ l.aState_prev) :
    (editSecsIter rc4 rc3 l s).2.out =
      s.out ++ (frameBytes (editSecsIter rc4 rc3 l s).2.myTime).map Event.byte
        ++ [Event.latch] := by
  simp only [editSecsIter, hrot, ne_eq, not_false_eq_true, if_true, latchOutData,
    sendDataOut]
  split_ifs <;> rfl

theorem editIter_rest (rc4 rc3 : Nat) (l : Locals) (s : State) (h : rc4 = l.aState_prev) :
    editHoursIter rc4 rc3 l s = ({ l with aState_curr := rc4 }, s) ∧
    editMinsIter rc4 rc3 l s = ({ l with aState_curr := rc4 }, s) ∧
    editSecsIter rc4 rc3 l s = ({ l with aState_curr := rc4 }, s) := by
  simp [editHoursIter, editMinsIter, editSecsIter, h]

/-- C14: for every state, if `myTime` is 43200 or more when `sendDataOut` starts, it sets
`myTime` to 0 and appends exactly the frame of `t = 0`, which decodes to the digits
(1,2,0,0,0,0) of 12:00:00; if `myTime` is below 43200 it leaves `myTime` unchanged and
appends the frame of `myTime`; in both cases `currentMode` and `waitFlag` are unchanged. -/
theorem C14_overflow_guard (s : State) :
    (s.myTime ≥ 43200 → (sendDataOut s).myTime = 0 ∧
      (sendDataOut s).out = s.out ++ (frameBytes 0).map Event.byte) ∧
    (s.myTime < 43200 → (sendDataOut s).myTime = s.myTime ∧
      (sendDataOut s).out = s.out ++ (frameBytes s.myTime).map Event.byte) ∧
    (sendDataOut s).currentMode = s.currentMode ∧
    (sendDataOut s).waitFlag = s.waitFlag ∧
    decodeFrame (frameBytes 0) = some (1, 2, 0, 0, 0, 0) := by
  refine ⟨sendDataOut_out_ge s, fun h => ⟨sendDataOut_myTime s h, sendDataOut_out s h⟩,
    (sendDataOut_regs s).1, (sendDataOut_regs s).2.1, by decide⟩

/-- C14 at 43200 and 65535 (reset to 0, frame of 0) and at 43199 (unchanged). -/
theorem C14_overflow_guard_witness :
    (sendDataOut (sampleState 43200)).myTime = 0 ∧
    (sendDataOut (sampleState 65535)).out = (frameBytes 0).map Event.byte ∧
    (sendDataOut (sampleState 43199)).myTime = 43199 :=
  ⟨((C14_overflow_guard (sampleState 43200)).1 (by decide)).1,
   ((C14_overflow_guard (sampleState 65535)).1 (by decide)).2,
   ((C14_overflow_guard (sampleState 43199)).2.1 (by decide)).1⟩

/-- C17: for every ClockTime in [0,43199] and every iteration of an edit loop that detects
a rotation, `myTime` becomes the adjusted value and the events appended to the output
trace are the six bytes of the frame of that adjusted `myTime` followed by exactly
one latch pulse, in this order. -/
theorem C17_edit_output_order (rc4 rc3 : Nat) (l : Locals) (s : State)
    (ht : s.myTime < 43200) (hrot : rc4 ≠ l.aState_prev) :
    ((editHoursIter rc4 rc3 l s).2.myTime = (hoursUpdate (decide (rc4 ≠ rc3)) s.myTime).2 ∧
      (editHoursIter rc4 rc3 l s).2.out =
        s.out ++ (frameBytes (editHoursIter rc4 rc3 l s).2.myTime).map Event.byte
          ++ [Event.latch] ∧
      (frameBytes (editHoursIter rc4 rc3 l s).2.myTime).length = 6) ∧
    ((editMinsIter rc4 rc3 l s).2.myTime = (minsUpdate (decide (rc4 ≠ rc3)) s.myTime).2 ∧
      (editMinsIter rc4 rc3 l s).2.out =
        s.out ++ (frameBytes (editMinsIter rc4 rc3 l s).2.myTime).map Event.byte
          ++ [Event.latch] ∧
      (frameBytes (editMinsIter rc4 rc3 l s).2.myTime).length = 6) ∧
    ((editSecsIter rc4 rc3 l s).2.myTime = (secsUpdate (decide (rc4 ≠ rc3)) s.myTime).2 ∧
      (editSecsIter rc4 rc3 l s).2.out =
        s.out ++ (frameBytes (editSecsIter rc4 rc3 l s).2.myTime).map Event.byte
          ++ [Event.latch] ∧
      (frameBytes (editSecsIter rc4 rc3 l s).2.myTime).length = 6) :=
  ⟨⟨(editHoursIter_rot rc4 rc3 l s ht hrot).1, editHoursIter_out rc4 rc3 l s hrot, rfl⟩,
   ⟨(editMinsIter_rot rc4 rc3 l s ht hrot).1, editMinsIter_out rc4 rc3 l s hrot, rfl⟩,
   ⟨(editSecsIter_rot rc4 rc3 l s ht hrot).1, editSecsIter_out rc4 rc3 l s hrot, rfl⟩⟩

/-- C17 at 12:00:00, hour increment: the frame of 01:00:00, then the latch pulse. -/
theorem C17_edit_output_order_witness :
    (editHoursIter 1 0 initLocals (editState 1 0)).2.myTime = 3600 ∧
    (editHoursIter 1 0 initLocals (editState 1 0)).2.out =
      [Event.byte 4, Event.byte 2, Event.byte 4, Event.byte 1, Event.byte 4, Event.byte 1,
       Event.latch] :=
  ⟨(C17_edit_output_order 1 0 initLocals (editState 1 0) (by decide) (by decide)).1.1.trans
     (by decide),
   (C17_edit_output_order 1 0 initLocals (editState 1 0) (by decide) (by decide)).1.2.1.trans
     (by decide)⟩

theorem freeRunningIter_send (s : State) (hw : s.waitFlag = 0) :
    (freeRunningIter s).out
      = s.out ++ (frameBytes (freeRunningIter s).myTime).map Event.byte ∧
    (freeRunningIter s).waitFlag = 1 ∧
    (freeRunningIter s).currentMode = s.currentMode := by
  simp only [freeRunningIter, hw, if_true, sendDataOut]
  split_ifs <;> simp

/-! ## Claims about the wait flag and the 16-bit arithmetic -/

/-- C19: for every ClockTime `t` in [0,43199] and each of the six adjustments, the `myTime`
computed with 16-bit arithmetic equals the result of the same two assignments over the
integers without any reduction; no subtraction goes below 0, and every intermediate
value (the old field, `adjustHours*3600` or `adjustMins*60`, the sum) and the new
`myTime` are at most 65535. -/
theorem C19_sixteen_bit_exact (up : Bool) (t : Nat) (ht : t < 43200) :
    (((hoursUpdate up t).2 : Int) = hoursAssignExact ((hoursUpdate up t).1 : Nat) (t : Nat) ∧
     ((minsUpdate up t).2 : Int) = minsAssignExact ((minsUpdate up t).1 : Nat) (t : Nat) ∧
     ((secsUpdate up t).2 : Int) = secsAssignExact ((secsUpdate up t).1 : Nat) (t : Nat)) ∧
    ((t / 3600) * 3600 ≤ t ∧ (t / 60 % 60) * 60 ≤ t ∧ t % 60 ≤ t) ∧
    ((t / 3600) * 3600 ≤ 65535 ∧ (hoursUpdate up t).1 * 3600 ≤ 65535 ∧
     t - (t / 3600) * 3600 + (hoursUpdate up t).1 * 3600 ≤ 65535 ∧
     (t / 60 % 60) * 60 ≤ 65535 ∧ (minsUpdate up t).1 * 60 ≤ 65535 ∧
     t - (t / 60 % 60) * 60 + (minsUpdate up t).1 * 60 ≤ 65535 ∧
     t - t % 60 + (secsUpdate up t).1 ≤ 65535) ∧
    ((hoursUpdate up t).2 ≤ 65535 ∧ (minsUpdate up t).2 ≤ 65535 ∧
     (secsUpdate up t).2 ≤ 65535) := by
  have lh := hoursUpdate_lt up t ht
  have lm := minsUpdate_lt up t ht
  have ls := secsUpdate_lt up t ht
  rw [hoursUpdate_eq up t ht, minsUpdate_eq up t ht, secsUpdate_eq up t ht] at *
  simp only [hoursAssignExact, minsAssignExact, secsAssignExact] at *
  cases up <;> simp only [if_true, if_false, Bool.false_eq_true] at * <;>
    refine ⟨⟨?_, ?_, ?_⟩, ⟨?_, ?_, ?_⟩, ⟨?_, ?_, ?_, ?_, ?_, ?_, ?_⟩, ⟨?_, ?_, ?_⟩⟩ <;> omega

/-- C19 at 12:00:59, hour decrement: `adjustHours = 11` and `11 * 3600` fits in 16 bits. -/
theorem C19_sixteen_bit_exact_witness :
    ((hoursUpdate false 59).2 : Int) = hoursAssignExact 11 59 ∧
    (hoursUpdate false 59).1 * 3600 ≤ 65535 :=
  ⟨(C19_sixteen_bit_exact false 59 (by decide)).1.1,
   (C19_sixteen_bit_exact false 59 (by decide)).2.2.1.2.1⟩

/-- C20: for every ClockTime in [0,43199] each of the six adjustments gives a `myTime` in
[0,43199] again, so in an iteration that detects a rotation the guard of the
`sendDataOut` that follows does not fire: `myTime` after the iteration is the
adjusted value, below 43200. -/
theorem C20_range_preserved (rc4 rc3 : Nat) (l : Locals) (s : State) (up : Bool)
    (ht : s.myTime < 43200) (hrot : rc4 ≠ l.aState_prev) :
    ((hoursUpdate up s.myTime).2 < 43200 ∧ (minsUpdate up s.myTime).2 < 43200 ∧
     (secsUpdate up s.myTime).2 < 43200) ∧
    ((editHoursIter rc4 rc3 l s).2.myTime = (hoursUpdate (decide (rc4 ≠ rc3)) s.myTime).2 ∧
     (editMinsIter rc4 rc3 l s).2.myTime = (minsUpdate (decide (rc4 ≠ rc3)) s.myTime).2 ∧
     (editSecsIter rc4 rc3 l s).2.myTime = (secsUpdate (decide (rc4 ≠ rc3)) s.myTime).2) ∧
    ((editHoursIter rc4 rc3 l s).2.myTime < 43200 ∧
     (editMinsIter rc4 rc3 l s).2.myTime < 43200 ∧
     (editSecsIter rc4 rc3 l s).2.myTime < 43200) := by
  have e1 := (editHoursIter_rot rc4 rc3 l s ht hrot).1
  have e2 := (editMinsIter_rot rc4 rc3 l s ht hrot).1
  have e3 := (editSecsIter_rot rc4 rc3 l s ht hrot).1
  refine ⟨⟨hoursUpdate_lt up _ ht, minsUpdate_lt up _ ht, secsUpdate_lt up _ ht⟩,
    ⟨e1, e2, e3⟩, ?_, ?_, ?_⟩
  · rw [e1]; exact hoursUpdate_lt _ _ ht
  · rw [e2]; exact minsUpdate_lt _ _ ht
  · rw [e3]; exact secsUpdate_lt _ _ ht

/-- C20 at 11:59:59: hour increment and minute increment stay below 43200. -/
theorem C20_range_preserved_witness :
    (hoursUpdate true 43199).2 < 43200 ∧
    (editMinsIter 1 0 initLocals (editState 2 43199)).2.myTime < 43200 :=
  ⟨(C20_range_preserved 1 0 initLocals (editState 2 43199) true (by decide) (by decide)).1.1,
   (C20_range_preserved 1 0 initLocals (editState 2 43199) true (by decide)
     (by decide)).2.2.2.1⟩

theorem list_six (r : List Nat) (h : r.length = 6) :
    ∃ a b c d e f, r = [a, b, c, d, e, f] := by
  rcases r with _ | ⟨a, _ | ⟨b, _ | ⟨c, _ | ⟨d, _ | ⟨e, _ | ⟨f, _ | ⟨g, r⟩⟩⟩⟩⟩⟩⟩ <;>
    simp at h
  exact ⟨a, b, c, d, e, f, rfl⟩

theorem panel_append (a b : List Event) :
    panel (a ++ b) = b.foldl panelStep (panel a) := by
  simp only [panel, List.foldl_append]

theorem panelStep_length (p : Panel) (e : Event) (h : p.reg.length = 6) :
    (panelStep p e).reg.length = 6 := by
  cases e with
  | byte b => simp [panelStep, h]
  | latch => exact h

theorem foldl_panel_length (out : List Event) : ∀ p : Panel, p.reg.length = 6 →
    (out.foldl panelStep p).reg.length = 6 := by
  induction out with
  | nil => intro p h; exact h
  | cons e es ih => intro p h; exact ih _ (panelStep_length p e h)

theorem panel_length (out : List Event) : (panel out).reg.length = 6 :=
  foldl_panel_length out panelCleared rfl

theorem frameBytes_six (t : Nat) : ∃ a b c d e f, frameBytes t = [a, b, c, d, e, f] :=
  list_six _ rfl

theorem foldl_panel_frame (p : Panel) (t : Nat) (h : p.reg.length = 6) :
    (((frameBytes t).map Event.byte).foldl panelStep p).reg = frameBytes t ∧
    (((frameBytes t).map Event.byte).foldl panelStep p).shown = p.shown := by
  obtain ⟨a, b, c, d, e, f, hb⟩ := frameBytes_six t
  obtain ⟨r1, r2, r3, r4, r5, r6, hr⟩ := list_six p.reg h
  rw [hb]
  simp [panelStep, hr]

theorem tick_free (s : State) (hIE : s.TMR0IE = 1) (hF : s.INTF = 0)
    (ht : s.myTime < 43200) :
    (ISR_High (timerOverflow s)).out = s.out ++ [Event.latch] ∧
    (ISR_High (timerOverflow s)).myTime = s.myTime + 1 := by
  have e : ISR_High (timerOverflow s) = tickBranch (timerOverflow s) := by
    rw [tick_eq s hF]
    simp only [hIE, if_true]
  rw [e]
  refine ⟨rfl, ?_⟩
  show u16 (s.myTime + 1) = s.myTime + 1
  simp only [u16]
  omega

theorem tickPeriod_out (s : State) (hIE : s.TMR0IE = 1) (hF : s.INTF = 0) :
    (tickPeriod s).out
      = s.out ++ [Event.latch] ++ (frameBytes (tickPeriod s).myTime).map Event.byte ∧
    (tickPeriod s).waitFlag = 1 := by
  have e : ISR_High (timerOverflow s) = tickBranch (timerOverflow s) := by
    rw [tick_eq s hF]
    simp only [hIE, if_true]
  have hw : (tickBranch (timerOverflow s)).waitFlag = 0 := rfl
  obtain ⟨f1, f2, -⟩ := freeRunningIter_send (tickBranch (timerOverflow s)) hw
  simp only [tickPeriod, e]
  exact ⟨f1, f2⟩

theorem iter_tickPeriod_panel (n : Nat) : ∀ s : State,
    s.currentMode = MODE_FREE_RUNNING → s.TMR0IE = 1 → s.INTF = 0 → s.myTime < 43200 →
    s.waitFlag = 1 → (panel s.out).reg = frameBytes s.myTime →
    (iter tickPeriod n s).TMR0IE = 1 ∧ (iter tickPeriod n s).INTF = 0 ∧
    (iter tickPeriod n s).myTime = (s.myTime + n) % 43200 ∧
    (iter tickPeriod n s).waitFlag = 1 ∧
    (panel (iter tickPeriod n s).out).reg = frameBytes (iter tickPeriod n s).myTime := by
  induction n with
  | zero =>
    intro s _ hIE hF ht hw hr
    exact ⟨hIE, hF, (Nat.mod_eq_of_lt ht).symm, hw, hr⟩
  | succ n ih =>
    intro s hm hIE hF ht _ _
    obtain ⟨m1, i1, f1, t1⟩ := tickPeriod_step s hm hIE hF ht
    obtain ⟨o1, w1⟩ := tickPeriod_out s hIE hF
    have lt1 : (tickPeriod s).myTime < 43200 := by
      rw [t1]; exact Nat.mod_lt _ (by norm_num)
    have r1 : (panel (tickPeriod s).out).reg = frameBytes (tickPeriod s).myTime := by
      rw [o1, panel_append]
      exact (foldl_panel_frame _ _ (panel_length _)).1
    obtain ⟨a1, a2, a3, a4, a5⟩ := ih (tickPeriod s) m1 i1 f1 lt1 w1 r1
    refine ⟨a1, a2, ?_, a4, a5⟩
    show (iter tickPeriod n (tickPeriod s)).myTime = _
    rw [a3, t1]
    omega

/-! ## Claims about the display -/

/-- C21: in free-running operation with ticks and main-loop passes alternating, from a
state whose clock `t` is in [0,43199], whose `waitFlag` is 1 and whose frame is in the
shift registers: after `n` periods `myTime` is `(t + n) mod 43200` with its frame sent
and `waitFlag = 1`, and the next tick appends just one latch pulse, so that right
after it the tubes show the frame of that pre-increment ClockTime while `myTime` is
one more (43200 after the tick at 43199, reduced to 0 by the next `sendDataOut`). -/
theorem C21_display_trails (s : State) (n : Nat)
    (hm : s.currentMode = MODE_FREE_RUNNING) (hIE : s.TMR0IE = 1) (hF : s.INTF = 0)
    (ht : s.myTime < 43200) (hw : s.waitFlag = 1)
    (hr : (panel s.out).reg = frameBytes s.myTime) :
    (iter tickPeriod n s).myTime = (s.myTime + n) % 43200 ∧
    (iter tickPeriod n s).waitFlag = 1 ∧
    (ISR_High (timerOverflow (iter tickPeriod n s))).out
      = (iter tickPeriod n s).out ++ [Event.latch] ∧
    (panel (ISR_High (timerOverflow (iter tickPeriod n s))).out).shown
      = frameBytes ((s.myTime + n) % 43200) ∧
    (ISR_High (timerOverflow (iter tickPeriod n s))).myTime
      = (s.myTime + n) % 43200 + 1 := by
  obtain ⟨a1, a2, a3, a4, a5⟩ := iter_tickPeriod_panel n s hm hIE hF ht hw hr
  have lt : (iter tickPeriod n s).myTime < 43200 := by
    rw [a3]; exact Nat.mod_lt _ (by norm_num)
  obtain ⟨o, t⟩ := tick_free (iter tickPeriod n s) a1 a2 lt
  refine ⟨a3, a4, o, ?_, ?_⟩
  · rw [o, panel_append]
    show (panel (iter tickPeriod n s).out).reg = _
    rw [a5, a3]
  · rw [t, a3]

/-- C21 across the wrap, from 11:59:58: one period and a tick show 11:59:59 with `myTime`
43200; two periods and a tick show 12:00:00 with `myTime` 1. -/
theorem C21_display_trails_witness :
    (panel (ISR_High (timerOverflow (iter tickPeriod 1
      (sentState 43198)))).out).shown = frameBytes 43199 ∧
    (ISR_High (timerOverflow (iter tickPeriod 1
      (sentState 43198)))).myTime = 43200 ∧
    (panel (ISR_High (timerOverflow (iter tickPeriod 2
      (sentState 43198)))).out).shown = frameBytes 0 ∧
    (ISR_High (timerOverflow (iter tickPeriod 2
      (sentState 43198)))).myTime = 1 :=
  ⟨(C21_display_trails (sentState 43198) 1 rfl rfl rfl (by decide)
      (by decide) (by decide)).2.2.2.1,
   (C21_display_trails (sentState 43198) 1 rfl rfl rfl (by decide)
      (by decide) (by decide)).2.2.2.2,
   (C21_display_trails (sentState 43198) 2 rfl rfl rfl (by decide)
      (by decide) (by decide)).2.2.2.1,
   (C21_display_trails (sentState 43198) 2 rfl rfl rfl (by decide)
      (by decide) (by decide)).2.2.2.2⟩

/-! ## Auxiliary facts about executions with interrupts inside a pass -/

theorem exec_append (a b : List Action) : ∀ c : Config,
    exec (a ++ b) c = exec b (exec a c) := by
  induction a with
  | nil => intro c; rfl
  | cons i is ih => intro c; exact ih (act i c)

theorem bodyStep_regs (k : InnerLoop) (rc4 rc3 : Nat) (l : Locals) (s : State) :
    (bodyStep k rc4 rc3 l s).2.currentMode = s.currentMode ∧
    (bodyStep k rc4 rc3 l s).2.TMR0IE = s.TMR0IE ∧
    (bodyStep k rc4 rc3 l s).2.TMR0IF = s.TMR0IF ∧
    (bodyStep k rc4 rc3 l s).2.INTF = s.INTF ∧
    (bodyStep k rc4 rc3 l s).2.T0EN = s.T0EN ∧
    (bodyStep k rc4 rc3 l s).2.TMR0H = s.TMR0H ∧
    (bodyStep k rc4 rc3 l s).2.TMR0L = s.TMR0L ∧
    (s.INTE = 1 → (bodyStep k rc4 rc3 l s).2.INTE = 1) := by
  cases k <;>
    simp only [bodyStep, freeRunningIter, editHoursIter, editMinsIter, editSecsIter,
      latchOutData] <;>
    split_ifs <;> simp [sendDataOut_regs]

theorem act_armed (a : Action) (c : Config) (h : armedInv c.st) : armedInv (act a c).st := by
  obtain ⟨pc, l, s⟩ := c
  obtain ⟨h1, h2, h3, h4, h5, h6⟩ := h
  simp only at h1 h2 h3 h4 h5 h6
  cases a with
  | press =>
    simp only [act, press_eq s h2 h4]
    obtain ⟨b1, b2, b3, b4, b5, b6⟩ := buttonBranch_armed (buttonEdge s)
    refine ⟨b1, b2.trans h2, b3, ?_, fun hm => ⟨(b5 hm).1, (b5 hm).2.1⟩, b6⟩
    intro hh
    rw [b4] at hh
    exact absurd hh.2 (by decide)
  | tick =>
    simp only [act, tick_eq s h3]
    by_cases hIE : s.TMR0IE = 1
    · simp only [hIE, if_true]
      refine ⟨h1, rfl, h3, ?_, h5, h6⟩
      intro hh
      have e : (0 : Nat) = 1 := hh.2
      exact absurd e (by decide)
    · simp only [hIE, if_false]
      exact ⟨h1, h2, h3, fun hh => hIE hh.1, h5, h6⟩
  | count h l => exact ⟨h1, h2, h3, h4, h5, h6⟩
  | advance rc4 rc3 =>
    cases pc with
    | test k =>
      simp only [act, mainStep]
      split_ifs <;> exact ⟨h1, h2, h3, h4, h5, h6⟩
    | body k =>
      obtain ⟨m1, m2, m3, m4, m5, -, -, m8⟩ := bodyStep_regs k rc4 rc3 l s
      simp only [act, mainStep]
      refine ⟨by rw [m1]; exact h1, m8 h2, by rw [m4]; exact h3, by rw [m2, m3]; exact h4,
        ?_, ?_⟩
      · rw [m1, m2, m5]; exact h5
      · rw [m1, m2, m5]; exact h6

theorem exec_armed (as : List Action) : ∀ c : Config, armedInv c.st →
    armedInv (exec as c).st := by
  induction as with
  | nil => intro c h; exact h
  | cons a as ih => intro c h; exact ih (act a c) (act_armed a c h)

theorem reached_armed (as : List Action) : armedInv (reached as).st :=
  exec_armed as _ powerOn_armed

theorem reached_press (as : List Action) :
    (reached (as ++ [Action.press])).st = buttonBranch (buttonEdge (reached as).st) := by
  obtain ⟨-, h2, -, h4, -, -⟩ := reached_armed as
  have e : reached (as ++ [Action.press]) = act Action.press (reached as) := by
    simp only [reached, exec_append, exec]
  rw [e]
  show ISR_High (buttonEdge (reached as).st) = _
  exact press_eq _ h2 h4

theorem freeRunningIter_myTime (s : State) (h : (freeRunningIter s).myTime ≠ s.myTime) :
    s.waitFlag = 0 ∧ 43200 ≤ s.myTime ∧ (freeRunningIter s).myTime = 0 := by
  by_cases hw : s.waitFlag = 0
  · by_cases hg : s.myTime ≥ 43200
    · refine ⟨hw, hg, ?_⟩
      simp [freeRunningIter, hw, sendDataOut, hg]
    · exfalso
      apply h
      simp [freeRunningIter, hw, sendDataOut, hg]
  · exfalso
    apply h
    simp [freeRunningIter, hw]

theorem press_sendDataOut (s : State) :
    sendDataOut (buttonBranch (buttonEdge s)) = buttonBranch (buttonEdge (sendDataOut s)) := by
  simp only [sendDataOut, buttonBranch, buttonEdge]
  split_ifs <;> rfl

theorem press_latchOutData (s : State) :
    latchOutData (buttonBranch (buttonEdge s)) = buttonBranch (buttonEdge (latchOutData s)) := by
  simp only [latchOutData, buttonBranch, buttonEdge]
  split_ifs <;> rfl

theorem press_myTime (s : State) (x : Nat) :
    { buttonBranch (buttonEdge s) with myTime := x }
      = buttonBranch (buttonEdge { s with myTime := x }) := by
  simp only [buttonBranch, buttonEdge]
  split_ifs <;> rfl

theorem press_waitFlag (s : State) (x : Nat) :
    { buttonBranch (buttonEdge s) with waitFlag := x }
      = buttonBranch (buttonEdge { s with waitFlag := x }) := by
  simp only [buttonBranch, buttonEdge]
  split_ifs <;> rfl

theorem press_keeps_read (s : State) :
    (buttonBranch (buttonEdge s)).myTime = s.myTime ∧
    (buttonBranch (buttonEdge s)).waitFlag = s.waitFlag :=
  ⟨(buttonBranch_keeps _).1, (buttonBranch_keeps _).2.1⟩

theorem press_body_commute (k : InnerLoop) (rc4 rc3 : Nat) (l : Locals) (s : State) :
    bodyStep k rc4 rc3 l (buttonBranch (buttonEdge s)) =
      ((bodyStep k rc4 rc3 l s).1, buttonBranch (buttonEdge (bodyStep k rc4 rc3 l s).2)) := by
  obtain ⟨e1, e2⟩ := press_keeps_read s
  cases k with
  | free =>
    simp only [bodyStep, freeRunningIter, e2]
    split_ifs
    · rw [press_sendDataOut, press_waitFlag]
    · rfl
  | hours =>
    simp only [editHoursIter, bodyStep, e1]
    split_ifs
    · rw [press_myTime, press_sendDataOut, press_latchOutData]
    · rfl
  | mins =>
    simp only [editMinsIter, bodyStep, e1]
    split_ifs
    · rw [press_myTime, press_sendDataOut, press_latchOutData]
    · rfl
  | secs =>
    simp only [editSecsIter, bodyStep, e1]
    split_ifs
    · rw [press_myTime, press_sendDataOut, press_latchOutData]
    · rfl

/-! ## Claims settled on executions with interrupts inside a pass -/

/-- C12: in every configuration reached from power-on by presses, ticks, counting of
timer0 and steps of the main program (with any sampled encoder levels, and with
interrupts served also between a loop test and the loop body), the timer0 interrupt
is enabled and timer0 runs if and only if `currentMode` is FreeRunning, and both are
off otherwise; a press in FreeRunning leads to EditHours with both off, a press in
EditHours or EditMins leads to the next edit mode with both off, and a press in
EditSecs leads to FreeRunning with both on and the timer registers, whatever values
`h` and `l` they held before the press, reloaded with 0x44 and 0x80. -/
theorem C12_tick_armed_iff_free (as : List Action) :
    (((reached as).st.TMR0IE = 1 ∧ (reached as).st.T0EN = 1) ↔
      (reached as).st.currentMode = MODE_FREE_RUNNING) ∧
    ((reached as).st.currentMode ≠ MODE_FREE_RUNNING →
      (reached as).st.TMR0IE = 0 ∧ (reached as).st.T0EN = 0) ∧
    ((reached as).st.currentMode = MODE_FREE_RUNNING →
      (reached (as ++ [Action.press])).st.currentMode = MODE_EDIT_HOURS ∧
      (reached (as ++ [Action.press])).st.TMR0IE = 0 ∧
      (reached (as ++ [Action.press])).st.T0EN = 0) ∧
    ((reached as).st.currentMode = MODE_EDIT_HOURS →
      (reached (as ++ [Action.press])).st.currentMode = MODE_EDIT_MINS ∧
      (reached (as ++ [Action.press])).st.TMR0IE = 0 ∧
      (reached (as ++ [Action.press])).st.T0EN = 0) ∧
    ((reached as).st.currentMode = MODE_EDIT_MINS →
      (reached (as ++ [Action.press])).st.currentMode = MODE_EDIT_SECS ∧
      (reached (as ++ [Action.press])).st.TMR0IE = 0 ∧
      (reached (as ++ [Action.press])).st.T0EN = 0) ∧
    ((reached as).st.currentMode = MODE_EDIT_SECS →
      ∀ h l : Nat,
        (reached (as ++ [Action.count h l])).st.currentMode = MODE_EDIT_SECS ∧
        (reached (as ++ [Action.count h l])).st.TMR0H = h ∧
        (reached (as ++ [Action.count h l])).st.TMR0L = l ∧
        (reached (as ++ [Action.count h l, Action.press])).st.currentMode
          = MODE_FREE_RUNNING ∧
        (reached (as ++ [Action.count h l, Action.press])).st.TMR0H = 0x44 ∧
        (reached (as ++ [Action.count h l, Action.press])).st.TMR0L = 0x80 ∧
        (reached (as ++ [Action.count h l, Action.press])).st.TMR0IE = 1 ∧
        (reached (as ++ [Action.count h l, Action.press])).st.T0EN = 1) ∧
    ((reached as).st.currentMode = MODE_EDIT_SECS →
      (reached (as ++ [Action.press])).st.currentMode = MODE_FREE_RUNNING ∧
      (reached (as ++ [Action.press])).st.TMR0H = 0x44 ∧
      (reached (as ++ [Action.press])).st.TMR0L = 0x80 ∧
      (reached (as ++ [Action.press])).st.TMR0IE = 1 ∧
      (reached (as ++ [Action.press])).st.T0EN = 1) := by
  obtain ⟨-, -, -, -, h5, h6⟩ := reached_armed as
  obtain ⟨-, -, -, -, b5, b6⟩ := buttonBranch_armed (buttonEdge (reached as).st)
  have last : ∀ bs : List Action, (reached bs).st.currentMode = MODE_EDIT_SECS →
      (reached (bs ++ [Action.press])).st.currentMode = MODE_FREE_RUNNING ∧
      (reached (bs ++ [Action.press])).st.TMR0H = 0x44 ∧
      (reached (bs ++ [Action.press])).st.TMR0L = 0x80 ∧
      (reached (bs ++ [Action.press])).st.TMR0IE = 1 ∧
      (reached (bs ++ [Action.press])).st.T0EN = 1 := by
    intro bs hm
    rw [reached_press]
    have e := buttonBranch_from (buttonEdge (reached bs).st) 3 hm (by decide)
    have e1 : (buttonBranch (buttonEdge (reached bs).st)).currentMode = MODE_FREE_RUNNING := e
    obtain ⟨c1, c2, c3, c4⟩ := (buttonBranch_armed (buttonEdge (reached bs).st)).2.2.2.2.1 e1
    exact ⟨e1, c3, c4, c1, c2⟩
  refine ⟨⟨?_, h5⟩, h6, ?_, ?_, ?_, ?_, last as⟩
  · intro h
    by_contra hne
    have := (h6 hne).1
    omega
  · intro hm
    rw [reached_press]
    have e := buttonBranch_from (buttonEdge (reached as).st) 0 hm (by decide)
    have e1 : (buttonBranch (buttonEdge (reached as).st)).currentMode = MODE_EDIT_HOURS := e
    have ne : (buttonBranch (buttonEdge (reached as).st)).currentMode ≠ MODE_FREE_RUNNING := by
      rw [e1]; decide
    exact ⟨e1, b6 ne⟩
  · intro hm
    rw [reached_press]
    have e := buttonBranch_from (buttonEdge (reached as).st) 1 hm (by decide)
    have e1 : (buttonBranch (buttonEdge (reached as).st)).currentMode = MODE_EDIT_MINS := e
    have ne : (buttonBranch (buttonEdge (reached as).st)).currentMode ≠ MODE_FREE_RUNNING := by
      rw [e1]; decide
    exact ⟨e1, b6 ne⟩
  · intro hm
    rw [reached_press]
    have e := buttonBranch_from (buttonEdge (reached as).st) 2 hm (by decide)
    have e1 : (buttonBranch (buttonEdge (reached as).st)).currentMode = MODE_EDIT_SECS := e
    have ne : (buttonBranch (buttonEdge (reached as).st)).currentMode ≠ MODE_FREE_RUNNING := by
      rw [e1]; decide
    exact ⟨e1, b6 ne⟩
  · intro hm h l
    have ec : reached (as ++ [Action.count h l]) = act (Action.count h l) (reached as) := by
      simp only [reached, exec_append, exec]
    have hm2 : (reached (as ++ [Action.count h l])).st.currentMode = MODE_EDIT_SECS := by
      rw [ec]; exact hm
    have ea : as ++ [Action.count h l, Action.press]
        = (as ++ [Action.count h l]) ++ [Action.press] := by simp
    rw [ea]
    refine ⟨hm2, ?_, ?_, last _ hm2⟩
    · rw [ec]; rfl
    · rw [ec]; rfl

/-- C12 after a pass through the edit modes with the timer registers at 0xAB and 0xCD:
the press in EditSecs reloads 0x44 and re-arms the tick source. -/
theorem C12_tick_armed_iff_free_witness :
    (reached [Action.press, Action.advance 0 0, Action.press, Action.press]).st.currentMode
      = MODE_EDIT_SECS ∧
    (reached ([Action.press, Action.advance 0 0, Action.press, Action.press]
      ++ [Action.count 171 205])).st.TMR0H = 171 ∧
    (reached ([Action.press, Action.advance 0 0, Action.press, Action.press]
      ++ [Action.count 171 205, Action.press])).st.currentMode = MODE_FREE_RUNNING ∧
    (reached ([Action.press, Action.advance 0 0, Action.press, Action.press]
      ++ [Action.count 171 205, Action.press])).st.TMR0H = 0x44 ∧
    (reached ([Action.press, Action.advance 0 0, Action.press, Action.press]
      ++ [Action.count 171 205, Action.press])).st.TMR0IE = 1 :=
  ⟨by decide,
   ((C12_tick_armed_iff_free
      [Action.press, Action.advance 0 0, Action.press, Action.press]).2.2.2.2.2.1
        (by decide) 171 205).2.1,
   ((C12_tick_armed_iff_free
      [Action.press, Action.advance 0 0, Action.press, Action.press]).2.2.2.2.2.1
        (by decide) 171 205).2.2.2.1,
   ((C12_tick_armed_iff_free
      [Action.press, Action.advance 0 0, Action.press, Action.press]).2.2.2.2.2.1
        (by decide) 171 205).2.2.2.2.1,
   ((C12_tick_armed_iff_free
      [Action.press, Action.advance 0 0, Action.press, Action.press]).2.2.2.2.2.1
        (by decide) 171 205).2.2.2.2.2.2.1⟩

/-- C13 fails as stated: from power-on the clock is brought to 11:59:59; the main program
passes the test of the free-running loop, the tick makes `myTime` 43200, and a press
served before the loop body sets the mode to EditHours.  The body of the
free-running loop then runs `sendDataOut` in EditHours mode and its guard sets
`myTime` to 0: `myTime` has changed in an edit mode, with no encoder level sampled
and the locals unchanged. -/
theorem C13_counterexample :
    (reached pressAfterTest).st.currentMode = MODE_EDIT_HOURS ∧
    (reached pressAfterTest).pc = Point.body InnerLoop.free ∧
    (reached pressAfterTest).st.myTime = 43200 ∧
    (reached pressAfterTest).loc.aState_prev = 1 ∧
    (act (Action.advance 1 1) (reached pressAfterTest)).st.currentMode = MODE_EDIT_HOURS ∧
    (act (Action.advance 1 1) (reached pressAfterTest)).loc = (reached pressAfterTest).loc ∧
    (act (Action.advance 1 1) (reached pressAfterTest)).st.myTime = 0 ∧
    (act (Action.advance 1 1) (reached pressAfterTest)).st.myTime
      ≠ (reached pressAfterTest).st.myTime := by
  decide

/-- C13 as amended: in every configuration reached from power-on whose mode is EditHours,
EditMins or EditSecs, `TMR0IE` is 0, so `ISR_High`, whatever the timer flag and the
button flag are when it is invoked, skips its timer branch: it does at most the
button branch and leaves `myTime`, `waitFlag` and the output trace unchanged; and an
action changes `myTime` there only if it is the body of an edit loop that detects a
rotation (channel A differs from `aState_prev`), or the body of the free-running
loop entered before the press, with `waitFlag = 0`, whose `sendDataOut` resets a
`myTime` of 43200 or more to 0. -/
theorem C13_no_tick_while_editing (as : List Action)
    (hm : (reached as).st.currentMode = MODE_EDIT_HOURS ∨
      (reached as).st.currentMode = MODE_EDIT_MINS ∨
      (reached as).st.currentMode = MODE_EDIT_SECS) :
    (reached as).st.TMR0IE = 0 ∧
    (∀ f g : Nat,
      ISR_High { (reached as).st with TMR0IF := f, INTF := g } =
        (if (reached as).st.INTE = 1 ∧ g = 1
          then buttonBranch { (reached as).st with TMR0IF := f, INTF := g }
          else { (reached as).st with TMR0IF := f, INTF := g }) ∧
      (ISR_High { (reached as).st with TMR0IF := f, INTF := g }).myTime
        = (reached as).st.myTime ∧
      (ISR_High { (reached as).st with TMR0IF := f, INTF := g }).waitFlag
        = (reached as).st.waitFlag ∧
      (ISR_High { (reached as).st with TMR0IF := f, INTF := g }).out
        = (reached as).st.out) ∧
    (∀ a : Action, (act a (reached as)).st.myTime ≠ (reached as).st.myTime →
      (∃ rc4 rc3 k, a = Action.advance rc4 rc3 ∧ (reached as).pc = Point.body k ∧
        k ≠ InnerLoop.free ∧ rc4 ≠ (reached as).loc.aState_prev) ∨
      (∃ rc4 rc3, a = Action.advance rc4 rc3 ∧
        (reached as).pc = Point.body InnerLoop.free ∧ (reached as).st.waitFlag = 0 ∧
        43200 ≤ (reached as).st.myTime ∧ (act a (reached as)).st.myTime = 0)) := by
  have hne : (reached as).st.currentMode ≠ MODE_FREE_RUNNING := by
    rcases hm with h | h | h <;> rw [h] <;> decide
  have hIE : (reached as).st.TMR0IE = 0 := ((reached_armed as).2.2.2.2.2 hne).1
  refine ⟨hIE, ?_, ?_⟩
  · intro f g
    have h0 : ({ (reached as).st with TMR0IF := f, INTF := g } : State).TMR0IE = 0 := hIE
    exact ⟨ISR_High_no_tick _ h0, ISR_High_no_tick_keeps _ h0⟩
  · intro a hi
    generalize reached as = c at *
    obtain ⟨pc, l, s⟩ := c
    simp only at hne hIE hi ⊢
    cases a with
    | press =>
      exfalso
      apply hi
      have h0 : (buttonEdge s).TMR0IE = 0 := hIE
      exact (ISR_High_no_tick_keeps _ h0).1
    | tick =>
      exfalso
      apply hi
      have h0 : (timerOverflow s).TMR0IE = 0 := hIE
      exact (ISR_High_no_tick_keeps _ h0).1
    | count h l =>
      exfalso
      exact hi rfl
    | advance rc4 rc3 =>
      cases pc with
      | test k =>
        exfalso
        apply hi
        simp only [act, mainStep]
        split_ifs <;> rfl
      | body k =>
        cases k with
        | free =>
          right
          have hi2 : (freeRunningIter s).myTime ≠ s.myTime := hi
          obtain ⟨w, g, z⟩ := freeRunningIter_myTime s hi2
          exact ⟨rc4, rc3, rfl, rfl, w, g, z⟩
        | hours =>
          left
          refine ⟨rc4, rc3, InnerLoop.hours, rfl, rfl, by decide, ?_⟩
          intro hr
          apply hi
          show (editHoursIter rc4 rc3 l s).2.myTime = s.myTime
          rw [(editIter_rest rc4 rc3 l s hr).1]
        | mins =>
          left
          refine ⟨rc4, rc3, InnerLoop.mins, rfl, rfl, by decide, ?_⟩
          intro hr
          apply hi
          show (editMinsIter rc4 rc3 l s).2.myTime = s.myTime
          rw [(editIter_rest rc4 rc3 l s hr).2.1]
        | secs =>
          left
          refine ⟨rc4, rc3, InnerLoop.secs, rfl, rfl, by decide, ?_⟩
          intro hr
          apply hi
          show (editSecsIter rc4 rc3 l s).2.myTime = s.myTime
          rw [(editIter_rest rc4 rc3 l s hr).2.2]

/-- C13 as amended, in EditHours with `myTime = 43200`: a raised timer flag does not
advance `myTime`. -/
theorem C13_no_tick_while_editing_witness :
    (reached pressAfterTest).st.currentMode = MODE_EDIT_HOURS ∧
    (reached pressAfterTest).st.TMR0IE = 0 ∧
    (ISR_High { (reached pressAfterTest).st with TMR0IF := 1, INTF := 0 }).myTime
      = (reached pressAfterTest).st.myTime :=
  ⟨by decide, (C13_no_tick_while_editing pressAfterTest (Or.inl (by decide))).1,
   ((C13_no_tick_while_editing pressAfterTest (Or.inl (by decide))).2.1 1 0).2.1⟩

/-- C15, the code at the failing input: the button branch itself never changes `myTime`
or `waitFlag`; but with the encoder at rest at channel A = 1 and channel B = 1 and
`aState_prev` still at its initial 0, the first pass of the EditHours loop takes the
level for a rotation and decrements the hour, so four presses with no rotation in
between go from 01:18:31 (`myTime = 4711`) to FreeRunning with `myTime = 1111`.
With the encoder at rest at channel A = 0 the same presses keep 4711. -/
theorem C15_spurious_adjust :
    (∀ s : State, (buttonBranch s).myTime = s.myTime ∧
      (buttonBranch s).waitFlag = s.waitFlag) ∧
    (sampleState 4711).currentMode = MODE_FREE_RUNNING ∧
    (sampleState 4711).myTime = 4711 ∧
    (run [Input.press, Input.mainLoop 1 1] (initLocals, sampleState 4711)).2.myTime = 1111 ∧
    (run [Input.press, Input.mainLoop 1 1, Input.press, Input.mainLoop 1 1, Input.press,
      Input.mainLoop 1 1, Input.press] (initLocals, sampleState 4711)).2.currentMode
        = MODE_FREE_RUNNING ∧
    (run [Input.press, Input.mainLoop 1 1, Input.press, Input.mainLoop 1 1, Input.press,
      Input.mainLoop 1 1, Input.press] (initLocals, sampleState 4711)).2.myTime = 1111 ∧
    (run [Input.press, Input.mainLoop 0 0, Input.press, Input.mainLoop 0 0, Input.press,
      Input.mainLoop 0 0, Input.press] (initLocals, sampleState 4711)).2.myTime = 4711 := by
  refine ⟨fun s => ⟨(buttonBranch_keeps s).1, (buttonBranch_keeps s).2.1⟩, ?_⟩
  decide

end Nixie
